import Mathlib

set_option maxRecDepth 8192

/-!
Verification of the android-root session engine (src/core/shell.py) and
session pool (src/core/manager.py) against its specification.

The embedding models the Python source shallowly:
* pure string manipulation (strip/split/substring membership, the
  dangerous-command and slow-command classifiers, exit-code extraction,
  batch tallying, registry bookkeeping) is translated directly;
* machine interaction is replaced by explicit oracles: the polling loop
  consumes a trace of `PollEvent`s (a clock reading plus the chunk of
  bytes the non-blocking read returned), and the interactive-prompt
  detectors, the staged-recovery message and the output-noise cleanup
  (shell.py lines 540-584) are function/string parameters that every
  theorem quantifies over;
* wall-clock readings are integer clock ticks (every threshold the
  source compares against is integer-valued, so the loop's control flow
  is captured exactly); Python dicts are association lists.
-/

namespace AndroidRoot

/-- ASCII whitespace, as recognised by the source's strip/split calls. -/
def isSpaceChar (c : Char) : Bool :=
  c == ' ' || c == '\t' || c == '\n' || c == '\r' || c == '\x0b' || c == '\x0c'

/-- Python str.strip(): drop leading and trailing whitespace. -/
def pyStrip (s : String) : String :=
  String.mk (((s.data.dropWhile isSpaceChar).reverse.dropWhile isSpaceChar).reverse)

/-- Helper for `pySplit`: walk the characters, accumulating the current word. -/
def pySplitGo : List Char → List Char → List String
  | [], acc => if acc = [] then [] else [String.mk acc.reverse]
  | c :: cs, acc =>
    if isSpaceChar c then
      if acc = [] then pySplitGo cs [] else String.mk acc.reverse :: pySplitGo cs []
    else pySplitGo cs (c :: acc)

/-- Python str.split() with no argument: split on whitespace runs, dropping empties. -/
def pySplit (s : String) : List String := pySplitGo s.data []

/-- Python substring membership test: `needle in hay`. -/
def strContains (hay needle : String) : Bool :=
  (List.range (hay.data.length + 1)).any (fun i => needle.data.isPrefixOf (hay.data.drop i))

/-- Python str.startswith. -/
def strStartsWith (s pre : String) : Bool := pre.data.isPrefixOf s.data

/-- Python s[-n:] for n > 0: the last n characters (the whole string when shorter). -/
def takeRightStr (n : Nat) (s : String) : String :=
  String.mk (s.data.drop (s.data.length - n))

/-- Python s[:n]. -/
def takeLeftStr (n : Nat) (s : String) : String := String.mk (s.data.take n)

/-- Python str.lower (the source only ever lowercases ASCII command text). -/
def lowerStr (s : String) : String := String.mk (s.data.map Char.toLower)

/-- Helper for `pyReplace`; the fuel starts above the input length, and every
step consumes at least one character, so it never runs out. -/
def pyReplaceGo (pat sub : List Char) : Nat → List Char → List Char
  | 0, cs => cs
  | _ + 1, [] => []
  | fuel + 1, c :: cs =>
    if pat ≠ [] ∧ pat.isPrefixOf (c :: cs) then
      sub ++ pyReplaceGo pat sub fuel ((c :: cs).drop pat.length)
    else c :: pyReplaceGo pat sub fuel cs

/-- Python str.replace for a non-empty pattern (the source only replaces
carriage-return sequences, which are non-empty). -/
def pyReplace (s pat sub : String) : String :=
  String.mk (pyReplaceGo pat.data sub.data (s.data.length + 1) s.data)

/-- Python '\n'.split-style splitting of a string into lines. -/
def splitLinesGo : List Char → List Char → List String
  | [], acc => [String.mk acc.reverse]
  | c :: cs, acc =>
    if c == '\n' then String.mk acc.reverse :: splitLinesGo cs []
    else splitLinesGo cs (c :: acc)

/-- Python s.split('\n'). -/
def splitLines (s : String) : List String := splitLinesGo s.data []

/-- Tiny pattern language covering exactly the regex features used by
SLOW_COMMAND_PATTERNS in src/core/config.py: literal text and a
whitespace-star gap. Every gap in those patterns is followed by a literal
starting with a non-space character, so greedily skipping whitespace is
exact. -/
inductive Tok where
  | lit (s : String)
  | ws

/-- Match a token sequence at the head of the character list. -/
def matchToks : List Tok → List Char → Bool
  | [], _ => true
  | Tok.lit l :: ts, cs => l.data.isPrefixOf cs && matchToks ts (cs.drop l.data.length)
  | Tok.ws :: ts, cs => matchToks ts (cs.dropWhile isSpaceChar)

/-- re.search: match the token sequence at any position. -/
def searchToks (ts : List Tok) : List Char → Bool
  | [] => matchToks ts []
  | c :: cs => matchToks ts (c :: cs) || searchToks ts cs

/-! Static heuristic tables from src/core/config.py. -/

/-- DANGEROUS_COMMANDS from src/core/config.py. -/
def DANGEROUS_COMMANDS : List String :=
  ["vi", "vim", "nano", "emacs",
   "top", "htop",
   "less", "more",
   "ssh", "telnet",
   "python", "python3", "node",
   "sh", "bash", "zsh",
   "adb shell",
   "su",
   "passwd",
   "read",
   "cat"]

/-- PROGRESS_CHECK_INTERVAL from src/core/config.py (seconds). -/
def PROGRESS_CHECK_INTERVAL : ℚ := 1/2

/-- STUCK_THRESHOLD_INTERVALS from src/core/config.py. -/
def STUCK_THRESHOLD_INTERVALS : Nat := 4

/-- SLOW_SILENT_COMMANDS from src/core/config.py. -/
def SLOW_SILENT_COMMANDS : List String :=
  ["wget", "curl", "aria2c", "axel",
   "scp", "rsync", "sftp", "ftp",
   "cp", "mv", "dd", "tar", "gzip", "gunzip", "bzip2", "xz",
   "zip", "unzip", "7z", "7za",
   "apt", "apt-get", "dpkg", "yum", "dnf", "pacman",
   "pip", "pip3", "npm", "yarn", "gem",
   "pm",
   "am", "cmd",
   "dex2oat",
   "installd",
   "mkfs", "fsck", "e2fsck", "resize2fs",
   "fdisk", "parted", "gdisk",
   "make", "cmake", "ninja", "gradle", "gradlew",
   "gcc", "g++", "clang", "javac",
   "sqlite3", "mysql", "pg_dump", "mongodump",
   "sha256sum", "sha512sum", "md5sum", "openssl",
   "gpg", "age",
   "find", "locate", "grep", "rg", "ag",
   "sync", "reboot", "shutdown",
   "mount", "umount",
   "adb",
   "sleep", "wait"]

/-- SLOW_COMMAND_PATTERNS from src/core/config.py: each entry keeps the
regex source text (used verbatim in the reason message) next to its
translation into the token language. -/
def SLOW_COMMAND_PATTERNS : List (String × List Tok) :=
  [(">\\s*/dev/null", [Tok.lit ">", Tok.ws, Tok.lit "/dev/null"]),
   ("2>&1\\s*>\\s*/dev/null", [Tok.lit "2>&1", Tok.ws, Tok.lit ">", Tok.ws, Tok.lit "/dev/null"]),
   ("--quiet", [Tok.lit "--quiet"]),
   ("-q", [Tok.lit "-q"]),
   ("--silent", [Tok.lit "--silent"]),
   ("-s", [Tok.lit "-s"]),
   ("--no-progress", [Tok.lit "--no-progress"]),
   ("\\|\\s*tail", [Tok.lit "|", Tok.ws, Tok.lit "tail"]),
   ("\\|\\s*head", [Tok.lit "|", Tok.ws, Tok.lit "head"]),
   ("\\|\\s*grep", [Tok.lit "|", Tok.ws, Tok.lit "grep"]),
   ("\\|\\s*awk", [Tok.lit "|", Tok.ws, Tok.lit "awk"]),
   ("\\|\\s*sed", [Tok.lit "|", Tok.ws, Tok.lit "sed"]),
   ("install", [Tok.lit "install"]),
   ("download", [Tok.lit "download"]),
   ("backup", [Tok.lit "backup"]),
   ("restore", [Tok.lit "restore"]),
   ("flash", [Tok.lit "flash"]),
   ("update", [Tok.lit "update"]),
   ("upgrade", [Tok.lit "upgrade"]),
   ("pull", [Tok.lit "pull"]),
   ("push", [Tok.lit "push"]),
   ("copy", [Tok.lit "copy"]),
   ("clone", [Tok.lit "clone"])]

/-- SLOW_COMMAND_TIMEOUT_MULTIPLIER from src/core/config.py. -/
def SLOW_COMMAND_TIMEOUT_MULTIPLIER : Nat := 10

/-- MIN_TIME_BEFORE_STUCK_CHECK from src/core/config.py (5.0 seconds,
integral on the model's clock). -/
def MIN_TIME_BEFORE_STUCK_CHECK : ℤ := 5

/-- Inner loop of Shell._check_dangerous_command: scan the dangerous list;
`continue` on a downgrade exception moves to the next candidate exactly as
in the source. -/
def dangerScan (base : String) (parts : List String) : List String → Option String
  | [] => none
  | d :: rest =>
    if base == d then
      if ["cat", "python", "python3", "node"].contains base && parts.length > 1 then
        dangerScan base parts rest
      else if ["sh", "bash", "zsh"].contains base && parts.contains "-c" then
        dangerScan base parts rest
      else if base == "su" && parts.contains "-c" then
        dangerScan base parts rest
      else
        some ("WARNING: '" ++ base ++ "' is an interactive command that may hang. Consider using alternatives or adding appropriate flags.")
    else dangerScan base parts rest

/-- Shell._check_dangerous_command (src/core/shell.py lines 161-185). -/
def checkDangerousCommand (command : String) : Option String :=
  match pySplit (pyStrip command) with
  | [] => none
  | base :: restParts => dangerScan base (base :: restParts) DANGEROUS_COMMANDS

/-- First phase of Shell._is_slow_silent_command: the slow/silent name list. -/
def slowListScan (base : String) : List String → Option String
  | [] => none
  | c :: rest =>
    if base == c then some ("'" ++ c ++ "' is a known slow/silent command")
    else slowListScan base rest

/-- Second phase of Shell._is_slow_silent_command: the slow regex patterns,
searched case-insensitively over the full command text. -/
def slowPatternScan (command : String) : List (String × List Tok) → Option String
  | [] => none
  | (src, toks) :: rest =>
    if searchToks toks (lowerStr command).data then
      some ("Command matches slow pattern: " ++ src)
    else slowPatternScan command rest

/-- Fourth phase of Shell._is_slow_silent_command: well-known large paths. -/
def largePathScan (command : String) : List String → Option String
  | [] => none
  | p :: rest =>
    if strContains command p then some ("Operation on potentially large path: " ++ p)
    else largePathScan command rest

/-- Shell._is_slow_silent_command (src/core/shell.py lines 187-219):
returns (is_slow, reason). -/
def isSlowSilentCommand (command : String) : Bool × String :=
  let parts := pySplit (pyStrip command)
  let base := parts.headD ""
  match slowListScan base SLOW_SILENT_COMMANDS with
  | some r => (true, r)
  | none =>
    match slowPatternScan command SLOW_COMMAND_PATTERNS with
    | some r => (true, r)
    | none =>
      if ["-r", "-R", "--recursive", "-rf", "-Rf"].any (fun f => parts.contains f) then
        (true, "Recursive operation detected")
      else
        match largePathScan command ["/data", "/system", "/sdcard", "/storage", "/mnt"] with
        | some r => (true, r)
        | none => (false, "")

/-! Exit-code framing: the regex `exit_marker(\d+)exit_marker` used by
Shell.run_command to recover the wrapped command's exit status. -/

/-- Digits-to-number conversion, as Python int() on a digit string. -/
def digitsToNat (ds : List Char) : Nat := ds.foldl (fun a c => 10 * a + (c.toNat - 48)) 0

/-- Backtracking for the greedy `\d+` group: try digit-run lengths from the
maximal one downwards until the closing marker matches. Returns the length
of the digit group. -/
def tryDigitLen (em after : List Char) : Nat → Option Nat
  | 0 => none
  | k + 1 => if em.isPrefixOf (after.drop (k + 1)) then some (k + 1) else tryDigitLen em after k

/-- Match `em(\d+)em` at the head of cs, returning the digit-group length. -/
def exitMatchAt (em cs : List Char) : Option Nat :=
  if em = [] then none
  else if em.isPrefixOf cs then
    let after := cs.drop em.length
    tryDigitLen em after (after.takeWhile Char.isDigit).length
  else none

/-- Leftmost search for `em(\d+)em`, returning the numeric group
(re.search in src/core/shell.py line 535). -/
def searchExitVal (em : List Char) : List Char → Option Nat
  | [] => none
  | c :: cs =>
    match exitMatchAt em (c :: cs) with
    | some k => some (digitsToNat (((c :: cs).drop em.length).take k))
    | none => searchExitVal em cs

/-- Exit-code extraction from the cleaned output. -/
def extractExitCode (em : String) (s : String) : Option Nat := searchExitVal em.data s.data

/-- re.sub of `em\d+em\n?` with the empty string (src/core/shell.py line 538):
delete every non-overlapping occurrence, left to right. Fuel as in pyReplace. -/
def stripExitGo (em : List Char) : Nat → List Char → List Char
  | 0, cs => cs
  | _ + 1, [] => []
  | fuel + 1, c :: cs =>
    match exitMatchAt em (c :: cs) with
    | some k =>
      let rest := ((c :: cs).drop (em.length + k + em.length))
      let rest := if rest.head? = some '\n' then rest.tail else rest
      stripExitGo em fuel rest
    | none => c :: stripExitGo em fuel cs

/-- Delete all exit-marker groups from the output. -/
def stripExitCodes (em : String) (s : String) : String :=
  String.mk (stripExitGo em.data (s.data.length + 1) s.data)

/-- Python str.find of the first occurrence of pat, as a position. -/
def firstPosGo (pat : List Char) : List Char → Nat → Option Nat
  | [], i => if pat.isPrefixOf [] then some i else none
  | c :: cs, i => if pat.isPrefixOf (c :: cs) then some i else firstPosGo pat cs (i + 1)

/-- Cut the output at the first occurrence of the end marker
(src/core/shell.py lines 529-531); unchanged when the marker is absent. -/
def cutBeforeMarker (marker s : String) : String :=
  match firstPosGo marker.data s.data 0 with
  | some p => takeLeftStr p s
  | none => s

/-! The progress-monitoring loop of Shell.run_command
(src/core/shell.py lines 409-523). -/

/-- One iteration of the polling loop as seen from outside: the wall-clock
reading taken at the top of the loop, the chunk the non-blocking read
returned (empty string = nothing available), and the clock reading taken
right after the read. -/
structure PollEvent where
  tCheck : ℤ
  chunk : String
  tRead : ℤ
deriving DecidableEq

/-- The mutable loop variables of Shell.run_command's monitoring loop. -/
structure LoopState where
  accumulated : String
  lastOutputTime : ℤ
  intervalsWithoutProgress : Nat
deriving DecidableEq

/-- Structured form of the result text Shell.run_command builds: one
constructor per return statement family.  `pending` is a model artifact
meaning the trace ended while the loop was still waiting (the real loop
would keep polling).  Each loop-produced constructor records the
dangerous-command warning attached to every such return. -/
inductive RunResult where
  | err (reason : String)
  | timedOut (partialOut : String) (warning : Option String) (slowNote : Option String)
  | waiting (specific : Bool) (promptPat : String) (partialOut : String) (warning : Option String)
  | uncertain (elapsed quiet : ℤ) (partialOut : String) (warning : Option String)
  | done (exitCode : Option Nat) (output : String) (warning : Option String)
  | pending (partialOut : String)
deriving DecidableEq

/-- Outcome of the monitoring loop: either the end marker was seen
(`broke`, Python's `break`) or a result was returned from inside the loop. -/
inductive LoopOut where
  | broke (accumulated : String)
  | ret (r : RunResult)
deriving DecidableEq

/-- Static data of one run_command call consumed by the loop. -/
structure LoopCfg where
  startTime : ℤ
  timeoutSeconds : Nat
  marker : String
  isSlow : Bool
  slowReason : String
  stuckThreshold : Nat
  minTimeForStuck : ℤ
  /-- Oracle for Shell._detect_interactive_prompt over the accumulated
  output (a pure pattern scan in the source, lines 221-237). -/
  detectPrompt : String → Option String
  /-- Oracle for the narrowed specific-prompt scan used for slow commands
  (lines 469-478). -/
  detectSpecific : String → Option String
  warning : Option String

/-- The monitoring loop (src/core/shell.py lines 426-523), one PollEvent per
iteration.  Mirrors the source: hard-timeout check first; on new bytes
reset the empty-poll counter, break on the end marker, otherwise scan for
prompts (the narrow scan when slow-classified); on an empty poll bump the
counter and, once it reaches the (possibly inflated) stuck threshold with
both elapsed and quiet time beyond the minimum, either reset and keep
waiting (slow commands) or return UNCERTAIN. -/
def runLoop (cfg : LoopCfg) (st : LoopState) : List PollEvent → LoopOut
  | [] => LoopOut.ret (RunResult.pending st.accumulated)
  | ev :: rest =>
    let elapsed := ev.tCheck - cfg.startTime
    if (cfg.timeoutSeconds : ℤ) ≤ elapsed then
      LoopOut.ret (RunResult.timedOut st.accumulated cfg.warning
        (if cfg.isSlow then some cfg.slowReason else none))
    else if ev.chunk ≠ "" then
      let acc := st.accumulated ++ ev.chunk
      if strContains acc cfg.marker then
        LoopOut.broke acc
      else if cfg.isSlow then
        match cfg.detectSpecific acc with
        | some p => LoopOut.ret (RunResult.waiting true p acc cfg.warning)
        | none => runLoop cfg ⟨acc, ev.tRead, 0⟩ rest
      else
        match cfg.detectPrompt acc with
        | some p => LoopOut.ret (RunResult.waiting false p acc cfg.warning)
        | none => runLoop cfg ⟨acc, ev.tRead, 0⟩ rest
    else
      let n := st.intervalsWithoutProgress + 1
      if cfg.stuckThreshold ≤ n then
        let quiet := ev.tRead - st.lastOutputTime
        if cfg.minTimeForStuck < elapsed ∧ cfg.minTimeForStuck < quiet then
          if cfg.isSlow then runLoop cfg ⟨st.accumulated, st.lastOutputTime, 0⟩ rest
          else LoopOut.ret (RunResult.uncertain elapsed quiet st.accumulated cfg.warning)
        else runLoop cfg ⟨st.accumulated, st.lastOutputTime, n⟩ rest
      else runLoop cfg ⟨st.accumulated, st.lastOutputTime, n⟩ rest

/-! The Shell object and run_command itself. -/

/-- ShellType from src/core/models.py. -/
inductive ShellType where
  | nonRoot
  | root
deriving DecidableEq

/-- The .value string of ShellType. -/
def ShellType.value : ShellType → String
  | .nonRoot => "non_root"
  | .root => "root"

/-- The persistent state of a Shell object (src/core/shell.py lines 29-37).
`processAlive = none` models `_process is None`; `some b` models a spawned
process whose isalive() currently reports b.  The unused `_cwd` field is
omitted. -/
structure ShellState where
  shellId : String
  deviceSerial : String
  shellType : ShellType
  isConnected : Bool
  processAlive : Option Bool
  lastActivity : ℤ
deriving DecidableEq

/-- Shell.is_alive (src/core/shell.py lines 143-147). -/
def isAliveB (sh : ShellState) : Bool :=
  sh.isConnected && sh.processAlive == some true

/-- Environment oracle for one run_command call: the per-call random
markers, the verify_responsive probe outcome, the prompt detectors, the
recovery-protocol message (Shell._multi_stage_interrupt), the noise
cleanup of the success path (src/core/shell.py lines 540-584, a pure text
scrub whose result no claim constrains), the poll trace and the clock. -/
structure RunEnv where
  marker : String
  exitMarker : String
  responsive : Bool
  detectPrompt : String → Option String
  detectSpecific : String → Option String
  recoveryMsg : String
  cleanNoise : String → String
  events : List PollEvent
  startTime : ℤ
  finishTime : ℤ

/-- Which externally visible interactions a run_command call performed:
the text written to the subprocess channel (none = nothing written), and
whether the liveness / responsiveness probes ran. -/
structure CallTrace where
  sentBytes : Option String
  probedAlive : Bool
  probedResponsive : Bool
deriving DecidableEq

/-- The wrapped command line Shell.run_command sends
(src/core/shell.py line 406). -/
def wrappedCommand (marker exitMarker command : String) : String :=
  command ++ "; echo \"" ++ exitMarker ++ "$?" ++ exitMarker ++ "\"; echo \"" ++ marker ++ "\""

/-- Success-path post-processing (src/core/shell.py lines 525-584):
normalise carriage returns, cut at the end marker, extract and strip the
exit code, then apply the noise cleanup. -/
def postprocessOutput (marker exitMarker : String) (cleanNoise : String → String)
    (acc : String) : Option Nat × String :=
  let output := pyReplace (pyReplace acc "\r\n" "\n") "\r" "\n"
  let output := cutBeforeMarker marker output
  match extractExitCode exitMarker output with
  | some c => (some c, cleanNoise (stripExitCodes exitMarker output))
  | none => (none, cleanNoise output)

/-- The loop configuration one run_command call builds, including the
adaptive thresholds of src/core/shell.py lines 417-424: a slow-classified
command inflates the stuck threshold tenfold and triples the minimum wait
before the stuck check. -/
def mkLoopCfg (command : String) (timeoutSeconds : Nat) (env : RunEnv) : LoopCfg :=
  { startTime := env.startTime
    timeoutSeconds := timeoutSeconds
    marker := env.marker
    isSlow := (isSlowSilentCommand command).1
    slowReason := (isSlowSilentCommand command).2
    stuckThreshold :=
      if (isSlowSilentCommand command).1 then
        STUCK_THRESHOLD_INTERVALS * SLOW_COMMAND_TIMEOUT_MULTIPLIER
      else STUCK_THRESHOLD_INTERVALS
    minTimeForStuck :=
      if (isSlowSilentCommand command).1 then MIN_TIME_BEFORE_STUCK_CHECK * 3
      else MIN_TIME_BEFORE_STUCK_CHECK
    detectPrompt := env.detectPrompt
    detectSpecific := env.detectSpecific
    warning := checkDangerousCommand command }

/-- Shell.run_command (src/core/shell.py lines 372-608).  Preconditions in
source order: non-empty command, liveness, responsiveness; then the
wrapped command is written and the monitoring loop runs; a broken-out
loop goes through success post-processing.  The pexpect exception
handlers (lines 604-608) are not modelled: the oracle trace is assumed
exception-free. -/
def run_command (sh : ShellState) (command : String) (timeoutSeconds : Nat)
    (env : RunEnv) : RunResult × ShellState × CallTrace :=
  if pyStrip command = "" then
    (RunResult.err "Empty command.", sh, ⟨none, false, false⟩)
  else if ¬ isAliveB sh then
    (RunResult.err "Shell not connected.\nAction: Use start_shell to connect first.",
     sh, ⟨none, true, false⟩)
  else if ¬ env.responsive then
    (RunResult.err "Shell not responding.\nAction: Use stop_shell then start_shell to reconnect.",
     sh, ⟨none, true, true⟩)
  else
    match runLoop (mkLoopCfg command timeoutSeconds env) ⟨"", env.startTime, 0⟩ env.events with
    | LoopOut.broke acc =>
      (RunResult.done (postprocessOutput env.marker env.exitMarker env.cleanNoise acc).1
        (postprocessOutput env.marker env.exitMarker env.cleanNoise acc).2
        (checkDangerousCommand command),
       { sh with lastActivity := env.finishTime },
       ⟨some (wrappedCommand env.marker env.exitMarker command), true, true⟩)
    | LoopOut.ret r =>
      (r, sh, ⟨some (wrappedCommand env.marker env.exitMarker command), true, true⟩)

/-! Rendering the structured results back to the literal text the source
returns, including the tail-truncation of partial output. -/

/-- The warning_msg suffix (src/core/shell.py line 390). -/
def warningMsg : Option String → String
  | some w => "\n" ++ w
  | none => ""

/-- Python's .1f formatting on the model's integer-tick clock: an
integer-valued duration always prints with a trailing ".0". -/
def ratFmt1 (q : ℤ) : String := toString q ++ ".0"

/-- The status line chosen by the success path for an extracted exit code
(src/core/shell.py lines 589-594). -/
def statusOf : Option Nat → String
  | some c => if c = 0 then "SUCCESS" else "COMMAND_FAILED"
  | none => "COMPLETED"

/-- The single documented status token each structured result renders
("PENDING" marks the model artifact of an exhausted trace). -/
def RunResult.statusToken : RunResult → String
  | .err _ => "ERROR"
  | .timedOut .. => "TIMEOUT"
  | .waiting .. => "WAITING_FOR_INPUT"
  | .uncertain .. => "UNCERTAIN"
  | .done c _ _ => statusOf c
  | .pending _ => "PENDING"

/-- The dangerous-command warning a result carries, if any. -/
def RunResult.warningOf : RunResult → Option String
  | .timedOut _ w _ => w
  | .waiting _ _ _ w => w
  | .uncertain _ _ _ w => w
  | .done _ _ w => w
  | _ => none

/-- The partial output carried by the three failure-path results. -/
def RunResult.partialOf : RunResult → Option String
  | .timedOut p _ _ => some p
  | .waiting _ _ p _ => some p
  | .uncertain _ _ p _ => some p
  | _ => none

/-- Render a structured result as the exact text Shell.run_command returns
(f-strings of src/core/shell.py).  `pending` renders empty: the real loop
never returns it. -/
def renderRunResult (shellId command : String) (timeoutSeconds : Nat)
    (recoveryMsg : String) : RunResult → String
  | .err reason => "STATUS: ERROR\nShell: " ++ shellId ++ "\nReason: " ++ reason
  | .timedOut p w slowNote =>
      "STATUS: TIMEOUT\nShell: " ++ shellId ++ "\n" ++
      "Command: " ++ takeLeftStr 100 command ++ "\nTimeout: " ++ toString timeoutSeconds ++ "s\n" ++
      "Partial output (" ++ toString p.length ++ " chars captured)\n" ++
      recoveryMsg ++
      (match slowNote with
       | some r => "\nNote: This was identified as a slow command (" ++ r ++ ")"
       | none => "") ++ "\n" ++
      "OUTPUT:\n" ++ (if p = "" then "(none)" else takeRightStr 2000 p) ++
      warningMsg w
  | .waiting false pat p w =>
      "STATUS: WAITING_FOR_INPUT\nShell: " ++ shellId ++ "\n" ++
      "Command: " ++ takeLeftStr 100 command ++ "\n" ++
      "Detected interactive prompt matching: " ++ pat ++ "\n" ++
      "The command is waiting for user input and would hang.\n" ++
      recoveryMsg ++ "\n" ++
      "OUTPUT:\n" ++ takeRightStr 2000 p ++
      warningMsg w
  | .waiting true pat p w =>
      "STATUS: WAITING_FOR_INPUT\nShell: " ++ shellId ++ "\n" ++
      "Command: " ++ takeLeftStr 100 command ++ "\n" ++
      "Detected specific prompt: " ++ pat ++ "\n" ++
      recoveryMsg ++ "\n" ++
      "OUTPUT:\n" ++ takeRightStr 2000 p ++
      warningMsg w
  | .uncertain e q p w =>
      "STATUS: UNCERTAIN\n" ++
      "Shell: " ++ shellId ++ "\n" ++
      "Command: " ++ takeLeftStr 100 command ++ "\n" ++
      "Elapsed: " ++ ratFmt1 e ++ "s\n" ++
      "No output for: " ++ ratFmt1 q ++ "s\n" ++
      "\n" ++
      "The command has produced no output recently. This could mean:\n" ++
      "1. It's working on something slow (downloading, processing)\n" ++
      "2. It's waiting for input that wasn't detected\n" ++
      "3. It's genuinely stuck\n" ++
      "\n" ++
      "WHAT YOU (the AI) SHOULD DO:\n" ++
      "• Use peek_output('" ++ shellId ++ "') to check for new output\n" ++
      "• Use diagnose_shell('" ++ shellId ++ "') for detailed analysis\n" ++
      "• If you think it's stuck: send_control_char('" ++ shellId ++ "', 'c')\n" ++
      "• If it needs input: send_input('" ++ shellId ++ "', 'your_response')\n" ++
      "• If you want to wait longer: just call run_command again with longer timeout\n" ++
      "\n" ++
      "PARTIAL OUTPUT SO FAR (" ++ toString p.length ++ " chars):\n" ++
      (if p = "" then "(none)" else takeRightStr 1500 p) ++
      warningMsg w
  | .done code out w =>
      "SHELL: " ++ shellId ++ "\n" ++
      (match code with
       | some c => "STATUS: " ++ (if c = 0 then "SUCCESS" else "COMMAND_FAILED") ++
                   "\n" ++ "EXIT_CODE: " ++ toString c
       | none => "STATUS: COMPLETED\n" ++ "EXIT_CODE: unknown") ++
      warningMsg w ++
      "\nOUTPUT:\n" ++ (if out = "" then "(no output)" else out)
  | .pending _ => ""

/-! Shell.connect (src/core/shell.py lines 39-114). -/

/-- Outcome of the spawn-and-find-prompt phase of Shell.connect, as the
environment decides it: a usable prompt (possibly after the blank-line
nudge), no prompt at all, a pexpect EOF, or a generic exception carrying
its message. -/
inductive PromptOutcome where
  | found (nudged : Bool)
  | noPrompt
  | eofError
  | excError (msg : String)
deriving DecidableEq

/-- Outcome of the five-way su escalation race plus the EOF handler
(src/core/shell.py lines 70-102). -/
inductive SuOutcome where
  | rootPrompt
  | denied
  | notFound
  | waitingConfirm
  | timedout
  | eofDuring
deriving DecidableEq

/-- Environment oracle for one connect() call. -/
structure ConnectEnv where
  prompt : PromptOutcome
  su : SuOutcome
  uidOk : Bool
  now : ℤ
deriving DecidableEq

/-- Structured connect() result: one constructor per return family.
`failure` keeps the Reason and Action lines separately; `failureBare` is
the generic-exception return, which has no Action line. -/
inductive ConnectRes where
  | connected
  | alreadyConnected
  | failure (reason action : String)
  | failureBare (reason : String)
deriving DecidableEq

/-- Shell._force_close (src/core/shell.py lines 116-124). -/
def forceClose (sh : ShellState) : ShellState :=
  { sh with processAlive := none, isConnected := false }

/-- Shell.connect (src/core/shell.py lines 39-114): idempotence check
first, then spawn, prompt detection, optional root escalation.  Returns
the structured result, the new shell state and whether a process was
spawned. -/
def connect (sh : ShellState) (env : ConnectEnv) : ConnectRes × ShellState × Bool :=
  if sh.isConnected && sh.processAlive == some true then
    (ConnectRes.alreadyConnected, sh, false)
  else
    match env.prompt with
    | PromptOutcome.noPrompt =>
      (ConnectRes.failure "Could not detect shell prompt."
        ("Check device " ++ sh.deviceSerial ++ " manually."), forceClose sh, true)
    | PromptOutcome.eofError =>
      (ConnectRes.failure "ADB connection failed."
        ("Check device " ++ sh.deviceSerial ++ " is connected."), forceClose sh, true)
    | PromptOutcome.excError msg =>
      (ConnectRes.failureBare msg, forceClose sh, true)
    | PromptOutcome.found _ =>
      if sh.shellType = ShellType.root then
        match env.su with
        | SuOutcome.rootPrompt =>
          if env.uidOk then
            (ConnectRes.connected,
             { sh with isConnected := true, processAlive := some true,
                       lastActivity := env.now }, true)
          else
            (ConnectRes.failure "su succeeded but uid != 0." "Root may be broken on device.",
             forceClose sh, true)
        | SuOutcome.denied =>
          (ConnectRes.failure "Root access denied."
            ("Grant root in Magisk/SuperSU on device " ++ sh.deviceSerial ++ "."),
           forceClose sh, true)
        | SuOutcome.notFound =>
          (ConnectRes.failure "su not found."
            ("Device " ++ sh.deviceSerial ++ " is not rooted."), forceClose sh, true)
        | SuOutcome.waitingConfirm =>
          (ConnectRes.failure "Waiting for root permission."
            ("Tap ALLOW on device " ++ sh.deviceSerial ++ " screen."), forceClose sh, true)
        | SuOutcome.timedout =>
          (ConnectRes.failure "Timeout during su." "Check device screen for prompts.",
           forceClose sh, true)
        | SuOutcome.eofDuring =>
          (ConnectRes.failure "Shell died during su." "Device may have disconnected.",
           forceClose sh, true)
      else
        (ConnectRes.connected,
         { sh with isConnected := true, processAlive := some true,
                   lastActivity := env.now }, true)

/-- Render a connect() result as the exact text the source returns. -/
def renderConnectRes (sh : ShellState) : ConnectRes → String
  | ConnectRes.connected =>
      "STATUS: CONNECTED\nShell: " ++ sh.shellId ++ "\nDevice: " ++ sh.deviceSerial ++
      "\nType: " ++ sh.shellType.value ++ "\nReady for commands."
  | ConnectRes.alreadyConnected =>
      "STATUS: ALREADY_CONNECTED\nShell: " ++ sh.shellId ++ "\nDevice: " ++ sh.deviceSerial ++
      "\nType: " ++ sh.shellType.value
  | ConnectRes.failure reason action =>
      "STATUS: ERROR\nShell: " ++ sh.shellId ++ "\nReason: " ++ reason ++ "\nAction: " ++ action
  | ConnectRes.failureBare reason =>
      "STATUS: ERROR\nShell: " ++ sh.shellId ++ "\nReason: " ++ reason

/-! ShellManager (src/core/manager.py). -/

/-- BackgroundJob record (src/core/models.py; the fields the manager
actually uses). -/
structure BackgroundJob where
  jobId : String
  command : String
  shellId : String
  startTime : ℤ
deriving DecidableEq

/-- The manager's two registries (src/core/manager.py lines 20-23),
as association lists standing for the Python dicts. -/
structure ManagerState where
  shells : List (String × ShellState)
  jobs : List (String × BackgroundJob)
deriving DecidableEq

/-- Python dict assignment: replace the binding if the key exists,
append otherwise. -/
def setKey {α : Type} (k : String) (v : α) : List (String × α) → List (String × α)
  | [] => [(k, v)]
  | (k', v') :: rest => if k' = k then (k, v) :: rest else (k', v') :: setKey k v rest

/-- Python dict.pop: drop the binding for the key. -/
def eraseKey {α : Type} (k : String) : List (String × α) → List (String × α)
  | [] => []
  | (k', v') :: rest => if k' = k then rest else (k', v') :: eraseKey k rest

/-- ShellManager.stop_shell (src/core/manager.py lines 149-156). -/
def stop_shell (m : ManagerState) (shellId : String) : String × ManagerState :=
  match List.lookup shellId m.shells with
  | none =>
    ("STATUS: ERROR\nShell: " ++ shellId ++
     "\nReason: Shell not found.\nAction: Use list_shells to see active shells.", m)
  | some sh =>
    ("STATUS: DISCONNECTED\nShell: " ++ sh.shellId,
     { m with shells := eraseKey shellId m.shells })

/-- ShellManager.run_in_shell (src/core/manager.py lines 158-169). -/
def run_in_shell (m : ManagerState) (shellId command : String) (timeoutSeconds : Nat)
    (workingDirectory : Option String) (env : RunEnv) : String × ManagerState :=
  match List.lookup shellId m.shells with
  | none =>
    ("STATUS: ERROR\nShell: " ++ shellId ++
     "\nReason: Shell not found.\nAction: Use list_shells to see active shells, or start_shell to create one.",
     m)
  | some sh =>
    let command :=
      match workingDirectory with
      | some d => "cd " ++ d ++ " && " ++ command
      | none => command
    let out := run_command sh command timeoutSeconds env
    (renderRunResult sh.shellId command timeoutSeconds env.recoveryMsg out.1,
     { m with shells := setKey shellId out.2.1 m.shells })

/-- The per-command success test of ShellManager.run_commands_batch
(src/core/manager.py line 221). -/
def isSuccessResult (result : String) : Bool :=
  strContains result "STATUS: SUCCESS" || strContains result "EXIT_CODE: 0"

/-- Extraction of the OUTPUT: section from a result text
(src/core/manager.py lines 228-237). -/
def collectOutputLines : Bool → List String → List String
  | _, [] => []
  | inOut, l :: rest =>
    if strStartsWith l "OUTPUT:" then collectOutputLines true rest
    else if inOut then l :: collectOutputLines true rest
    else collectOutputLines false rest

/-- Cleaned output of one batch entry. -/
def extractOutputSection (result : String) : String :=
  let outLines := collectOutputLines false (splitLines result)
  if outLines = [] then "(no output)" else pyStrip (String.intercalate "\n" outLines)

/-- One entry of the commands list passed to run_commands_batch: either a
bare string or a dict with optional id/timeout/working-directory. -/
inductive CmdSpec where
  | bare (command : String)
  | record (command : String) (cid : Option String) (timeoutSeconds : Option Nat)
      (workingDirectory : Option String)
deriving DecidableEq

/-- Field extraction with the source's defaults (src/core/manager.py
lines 200-210): id defaults to cmd_<i>, timeout to 30. -/
def specFields (i : Nat) : CmdSpec → String × String × Nat × Option String
  | CmdSpec.bare c => (c, "cmd_" ++ toString i, 30, none)
  | CmdSpec.record c cid t cwd =>
      (c, cid.getD ("cmd_" ++ toString i), t.getD 30, cwd)

/-- Accumulated outcome of the batch loop: the per-command result entries,
the tallies, and — for the theorems — the list of run_command invocations
actually made as (id, actual command, result text) triples. -/
structure BatchOut where
  results : List String
  succeeded : Nat
  failed : Nat
  calls : List (String × String × String)
deriving DecidableEq

/-- The stop marker appended when stop_on_error fires
(src/core/manager.py line 245). -/
def stopMarker (cid : String) : String :=
  "\n--- STOPPED: Command '" ++ cid ++ "' failed and stop_on_error=True ---"

/-- The actual command of a batch entry, with the optional directory
change prefixed (src/core/manager.py line 217). -/
def batchActual (i : Nat) (spec : CmdSpec) : String :=
  match (specFields i spec).2.2.2 with
  | some d => "cd " ++ d ++ " && " ++ (specFields i spec).1
  | none => (specFields i spec).1

/-- One per-command result entry (src/core/manager.py lines 239-241). -/
def batchEntry (cid result : String) : String :=
  "[" ++ cid ++ "] " ++ (if isSuccessResult result then "SUCCESS" else "FAILED") ++ "\n" ++
  extractOutputSection result

/-- The loop body of ShellManager.run_commands_batch (src/core/manager.py
lines 199-246), parametrised over the shell's run_command as an oracle
`exec` taking the enumeration index, the actual command and its timeout
(the oracle is pure, so re-evaluating it stands for the single call the
source makes). -/
def batchGo (exec : Nat → String → Nat → String) (stopOnError : Bool) :
    Nat → List CmdSpec → BatchOut
  | _, [] => ⟨[], 0, 0, []⟩
  | i, spec :: rest =>
    if (specFields i spec).1 = "" then
      ⟨("[" ++ (specFields i spec).2.1 ++ "] SKIPPED: Empty command") ::
         (batchGo exec stopOnError (i + 1) rest).results,
       (batchGo exec stopOnError (i + 1) rest).succeeded,
       (batchGo exec stopOnError (i + 1) rest).failed,
       (batchGo exec stopOnError (i + 1) rest).calls⟩
    else
      if stopOnError &&
          !(isSuccessResult (exec i (batchActual i spec) (specFields i spec).2.2.1)) then
        ⟨[batchEntry (specFields i spec).2.1 (exec i (batchActual i spec) (specFields i spec).2.2.1),
          stopMarker (specFields i spec).2.1],
         0, 1,
         [((specFields i spec).2.1, batchActual i spec,
           exec i (batchActual i spec) (specFields i spec).2.2.1)]⟩
      else
        ⟨batchEntry (specFields i spec).2.1 (exec i (batchActual i spec) (specFields i spec).2.2.1) ::
           (batchGo exec stopOnError (i + 1) rest).results,
         (if isSuccessResult (exec i (batchActual i spec) (specFields i spec).2.2.1) then 1 else 0) +
           (batchGo exec stopOnError (i + 1) rest).succeeded,
         (if isSuccessResult (exec i (batchActual i spec) (specFields i spec).2.2.1) then 0 else 1) +
           (batchGo exec stopOnError (i + 1) rest).failed,
         ((specFields i spec).2.1, batchActual i spec,
           exec i (batchActual i spec) (specFields i spec).2.2.1) ::
           (batchGo exec stopOnError (i + 1) rest).calls⟩

/-- The batch header plus separator (src/core/manager.py lines 249-252). -/
def batchRender (total : Nat) (B : BatchOut) : String :=
  ("BATCH RESULTS: " ++ toString B.succeeded ++ "/" ++ toString total ++ " succeeded, " ++
   toString B.failed ++ " failed") ++ "\n" ++ String.mk (List.replicate 50 '=') ++
  "\n\n" ++ String.intercalate "\n\n" B.results

/-- ShellManager.run_commands_batch (src/core/manager.py lines 171-252). -/
def run_commands_batch (m : ManagerState) (shellId : String) (commands : List CmdSpec)
    (stopOnError : Bool) (exec : Nat → String → Nat → String) : String × ManagerState :=
  match List.lookup shellId m.shells with
  | none => ("STATUS: ERROR\nShell: " ++ shellId ++ "\nReason: Shell not found.", m)
  | some sh =>
    if ¬ isAliveB sh then
      ("STATUS: ERROR\nShell: " ++ shellId ++ "\nReason: Shell not connected.", m)
    else
      (batchRender commands.length (batchGo exec stopOnError 0 commands), m)

/-- Python str.isdigit on a stripped line, used for PID extraction. -/
def isDigitsLine (l : String) : Bool :=
  let t := pyStrip l
  t ≠ "" && t.data.all Char.isDigit

/-- ShellManager.run_background (src/core/manager.py lines 339-376),
with the generated job id and the run_command environment as oracles. -/
def run_background (m : ManagerState) (shellId command : String) (jobId : String)
    (env : RunEnv) (now : ℤ) : String × ManagerState :=
  match List.lookup shellId m.shells with
  | none => ("STATUS: ERROR\nShell: " ++ shellId ++ "\nReason: Shell not found.", m)
  | some sh =>
    if ¬ isAliveB sh then
      ("STATUS: ERROR\nShell: " ++ shellId ++ "\nReason: Shell not connected.", m)
    else
      let bgCommand := "nohup " ++ command ++ " > /data/local/tmp/" ++ jobId ++
        ".out 2>&1 & echo $!"
      let out := run_command sh bgCommand 10 env
      let result := renderRunResult sh.shellId bgCommand 10 env.recoveryMsg out.1
      let m := { m with shells := setKey shellId out.2.1 m.shells }
      if strContains result "STATUS: SUCCESS" || strContains result "STATUS: COMPLETED" then
        let pid := (splitLines result).find? isDigitsLine
        ("STATUS: STARTED\nJob: " ++ jobId ++ "\nShell: " ++ shellId ++ "\nPID: " ++
         (match pid with | some p => pyStrip p | none => "unknown") ++
         "\nCommand: " ++ takeLeftStr 100 command ++
         "\nOutput file: /data/local/tmp/" ++ jobId ++ ".out",
         { m with jobs := setKey jobId ⟨jobId, command, shellId, now⟩ m.jobs })
      else
        ("STATUS: ERROR\nReason: Failed to start background job.\nDetails: " ++ result, m)

/-- ShellManager.check_background_job (src/core/manager.py lines 378-397):
job lookup, then owning-shell lookup, then two run_command probes on the
device whose environments are oracles. -/
def check_background_job (m : ManagerState) (jobId : String)
    (env1 env2 : RunEnv) (now : ℤ) : String × ManagerState :=
  match List.lookup jobId m.jobs with
  | none => ("STATUS: ERROR\nJob: " ++ jobId ++ "\nReason: Job not found.", m)
  | some job =>
    match List.lookup job.shellId m.shells with
    | none =>
      ("STATUS: ERROR\nJob: " ++ jobId ++ "\nReason: Shell " ++ job.shellId ++
       " no longer exists.", m)
    | some sh =>
      let out1 := run_command sh
        ("cat /data/local/tmp/" ++ jobId ++ ".out 2>/dev/null || echo '(no output yet)'")
        10 env1
      let result := renderRunResult sh.shellId
        ("cat /data/local/tmp/" ++ jobId ++ ".out 2>/dev/null || echo '(no output yet)'")
        10 env1.recoveryMsg out1.1
      let out2 := run_command out1.2.1
        ("ps | grep -v grep | grep " ++ jobId ++ " || echo 'COMPLETED'") 5 env2
      let checkResult := renderRunResult sh.shellId
        ("ps | grep -v grep | grep " ++ jobId ++ " || echo 'COMPLETED'") 5 env2.recoveryMsg out2.1
      let isRunning := ¬ strContains checkResult "COMPLETED"
      ("STATUS: " ++ (if isRunning then "RUNNING" else "COMPLETED") ++
       "\nJob: " ++ jobId ++ "\nCommand: " ++ takeLeftStr 100 job.command ++
       "\nStarted: " ++ ratFmt1 (now - job.startTime) ++ "s ago\n" ++ result,
       { m with shells := setKey job.shellId out2.2.1 m.shells })

/-- Shell.get_status rendered by ShellManager.get_shell_status
(src/core/manager.py lines 399-408); the responsiveness probe outcome and
the clock are oracles. -/
def get_shell_status (m : ManagerState) (shellId : String) (responsive : Bool)
    (now : ℤ) : String × ManagerState :=
  match List.lookup shellId m.shells with
  | none => ("STATUS: ERROR\nShell: " ++ shellId ++ "\nReason: Shell not found.", m)
  | some sh =>
    let connected := sh.isConnected && isAliveB sh
    let responsiveVal := if sh.isConnected then responsive else false
    let idle : Option ℤ := if sh.lastActivity = 0 then none else some (now - sh.lastActivity)
    let idleStr :=
      match idle with
      | some i => if i = 0 then "" else "\nIdle: " ++ ratFmt1 i ++ "s"
      | none => ""
    ("STATUS: INFO\nShell: " ++ shellId ++ "\nDevice: " ++ sh.deviceSerial ++
     "\nType: " ++ sh.shellType.value ++ "\nConnected: " ++
     (if connected then "True" else "False") ++ "\nResponsive: " ++
     (if responsiveVal then "True" else "False") ++ idleStr, m)

/-- Shell.peek_output (src/core/shell.py lines 257-275) with the raw
available bytes as an oracle. -/
def peek_output (sh : ShellState) (raw : String) : String :=
  if ¬ isAliveB sh then "Shell is not connected."
  else if raw ≠ "" then pyReplace (pyReplace raw "\r\n" "\n") "\r" "\n"
  else "(no new output available)"

/-- ShellManager.peek_shell_output (src/core/manager.py lines 410-418). -/
def peek_shell_output (m : ManagerState) (shellId : String) (raw : String) :
    String × ManagerState :=
  match List.lookup shellId m.shells with
  | none => ("STATUS: ERROR\nShell: " ++ shellId ++ "\nReason: Shell not found.", m)
  | some sh => ("SHELL: " ++ shellId ++ "\nPEEKED_OUTPUT:\n" ++ peek_output sh raw, m)

/-- Python repr of the quote-free ASCII text the tests send; adequate here
because no claim constrains the echoed representation. -/
def pyRepr (s : String) : String := "'" ++ s ++ "'"

/-- Shell.send_input (src/core/shell.py lines 277-297). -/
def send_input (sh : ShellState) (text : String) (pressEnter : Bool) : String :=
  if ¬ isAliveB sh then "STATUS: ERROR\nShell is not connected."
  else "STATUS: SENT\nSent: " ++ pyRepr text ++ "\nPress enter: " ++
    (if pressEnter then "True" else "False")

/-- ShellManager.send_to_shell (src/core/manager.py lines 420-427). -/
def send_to_shell (m : ManagerState) (shellId text : String) (pressEnter : Bool) :
    String × ManagerState :=
  match List.lookup shellId m.shells with
  | none => ("STATUS: ERROR\nShell: " ++ shellId ++ "\nReason: Shell not found.", m)
  | some sh => (send_input sh text pressEnter, m)

/-- The device-state probe of ShellManager.start_shell
(src/core/manager.py lines 122-134). -/
inductive ProbeOutcome where
  | state (s : String)
  | timedout
  | exc (msg : String)
deriving DecidableEq

/-- Environment oracle for one start_shell call: the probe outcome, the
generated shell id and the connect() environment. -/
structure StartEnv where
  probe : ProbeOutcome
  newShellId : String
  connectEnv : ConnectEnv
deriving DecidableEq

/-- The registration test of ShellManager.start_shell (line 142). -/
def handshakeSucceeded (s : String) : Bool :=
  strContains s "STATUS: CONNECTED" || strContains s "STATUS: ALREADY_CONNECTED"

/-- The fresh Shell object start_shell constructs before the handshake
(src/core/manager.py lines 117-138): generated id, requested device,
root unless told otherwise, disconnected, no process. -/
def freshShell (deviceSerial shellType : String) (env : StartEnv) : ShellState :=
  ⟨env.newShellId, deviceSerial,
   (if lowerStr shellType = "root" then ShellType.root else ShellType.nonRoot),
   false, none, 0⟩

/-- ShellManager.start_shell (src/core/manager.py lines 114-147). -/
def start_shell (m : ManagerState) (deviceSerial shellType : String)
    (env : StartEnv) : String × ManagerState :=
  match env.probe with
  | ProbeOutcome.timedout =>
    ("STATUS: ERROR\nDevice: " ++ deviceSerial ++
     "\nReason: Timeout checking device state.\nAction: Check USB connection.", m)
  | ProbeOutcome.exc msg =>
    ("STATUS: ERROR\nDevice: " ++ deviceSerial ++ "\nReason: " ++ msg, m)
  | ProbeOutcome.state s =>
    if s ≠ "device" then
      ("STATUS: ERROR\nDevice: " ++ deviceSerial ++ "\nReason: Device state is '" ++ s ++
       "', not 'device'.\nAction: Ensure device is connected and authorized.", m)
    else
      if handshakeSucceeded (renderConnectRes (freshShell deviceSerial shellType env)
          (connect (freshShell deviceSerial shellType env) env.connectEnv).1) then
        (renderConnectRes (freshShell deviceSerial shellType env)
           (connect (freshShell deviceSerial shellType env) env.connectEnv).1,
         { m with shells := (setKey env.newShellId
             (connect (freshShell deviceSerial shellType env) env.connectEnv).2.1 m.shells) })
      else
        (renderConnectRes (freshShell deviceSerial shellType env)
           (connect (freshShell deviceSerial shellType env) env.connectEnv).1, m)

/-- ShellManager.stop_all (src/core/manager.py lines 465-473). -/
def stop_all (m : ManagerState) : String × ManagerState :=
  ("STATUS: STOPPED\nClosed " ++ toString m.shells.length ++ " shell(s).",
   ⟨[], []⟩)

/-! Derived observers and concrete fixtures used by the theorems. -/

/-- Whether a run result is the UNCERTAIN verdict. -/
def RunResult.isUncertain : RunResult → Bool
  | RunResult.uncertain .. => true
  | _ => false

/-- Concatenation of the chunks of a poll-event trace, in order. -/
def joinChunks : List PollEvent → String
  | [] => ""
  | ev :: rest => ev.chunk ++ joinChunks rest

/-- The partial-output tail cap of each failure render: 1500 characters
for UNCERTAIN, 2000 for TIMEOUT and WAITING_FOR_INPUT. -/
def truncLimit : RunResult → Nat
  | RunResult.uncertain .. => 1500
  | _ => 2000

/-- The documented status tokens a run_command result can carry. -/
def documentedTokens : List String :=
  ["ERROR", "TIMEOUT", "WAITING_FOR_INPUT", "UNCERTAIN",
   "SUCCESS", "COMMAND_FAILED", "COMPLETED"]

/-- A prompt detector that reports nothing (fixture). -/
def detectNone : String → Option String := fun _ => none

/-- A connected, alive shell (fixture). -/
def shellOk : ShellState := ⟨"s1", "emulator-5554", ShellType.nonRoot, true, some true, 0⟩

/-- A disconnected shell with no process (fixture). -/
def shellDead : ShellState := ⟨"s1", "emulator-5554", ShellType.nonRoot, false, none, 0⟩

/-- A benign run environment over a given poll trace (fixture). -/
def envOf (events : List PollEvent) (marker exitMarker : String) : RunEnv :=
  ⟨marker, exitMarker, true, detectNone, detectNone, "", fun s => s, events, 0, 1⟩

/-- An exec oracle whose results never show success (fixture). -/
def execFail : Nat → String → Nat → String :=
  fun _ _ _ => "STATUS: ERROR\nShell: s1\nReason: boom"

/-- The 2001-character output used to exhibit the tail truncation:
one 'Z' followed by 2000 'Q's. -/
def bigChunk : String := String.mk ('Z' :: List.replicate 2000 'Q')

/-! Helper lemmas about the string model. -/

theorem strData_ext {s t : String} (h : s.data = t.data) : s = t := by
  cases s; cases t; cases h; rfl

theorem strAppend_data (a b : String) : (a ++ b).data = a.data ++ b.data :=
  String.data_append a b

theorem strAppend_assoc (a b c : String) : (a ++ b) ++ c = a ++ (b ++ c) := by
  apply strData_ext; simp [strAppend_data]

theorem strAppend_empty_right (s : String) : s ++ "" = s := by
  apply strData_ext
  rw [strAppend_data, show ("" : String).data = [] from rfl, List.append_nil]

theorem strAppend_empty_left (s : String) : "" ++ s = s := by
  apply strData_ext
  rw [strAppend_data, show ("" : String).data = [] from rfl, List.nil_append]

/-- Exhibiting a decomposition proves substring membership. -/
theorem strContains_intro (s t : String) (l r : List Char)
    (h : s.data = l ++ t.data ++ r) : strContains s t = true := by
  unfold strContains
  rw [List.any_eq_true]
  refine ⟨l.length, List.mem_range.mpr ?_, ?_⟩
  · have hlen : s.data.length = l.length + (t.data.length + r.length) := by
      rw [h]; simp [Nat.add_assoc]
    omega
  · rw [h, List.append_assoc, List.drop_left]
    exact List.isPrefixOf_iff_prefix.mpr ⟨r, rfl⟩

theorem strContains_nil (s t : String) (h : t.data = []) : strContains s t = true := by
  unfold strContains
  rw [List.any_eq_true]
  refine ⟨0, List.mem_range.mpr (Nat.succ_pos _), ?_⟩
  rw [h]
  simp [List.isPrefixOf]

theorem strContains_empty (s : String) : strContains s "" = true :=
  strContains_nil s "" rfl

/-! Lemmas about the monitoring loop. -/

/-- A slow-classified configuration never produces the UNCERTAIN verdict,
for any trace and any loop state. -/
theorem runLoop_slow_not_uncertain (cfg : LoopCfg) (h : cfg.isSlow = true) :
    ∀ (evs : List PollEvent) (st : LoopState) (r : RunResult),
      runLoop cfg st evs = LoopOut.ret r → r.isUncertain = false := by
  intro evs
  induction evs with
  | nil =>
    intro st r hr
    simp only [runLoop] at hr
    cases hr; rfl
  | cons ev rest ih =>
    intro st r hr
    simp only [runLoop, h, if_true] at hr
    split at hr
    · cases hr; rfl
    · split at hr
      · split at hr
        · exact absurd hr (by simp)
        · split at hr
          · cases hr; rfl
          · exact ih _ _ hr
      · split at hr
        · split at hr
          · exact ih _ _ hr
          · exact ih _ _ hr
        · exact ih _ _ hr

/-- C1: a run_command call whose command is classified slow/silent never
returns the UNCERTAIN status: at the stuck check the slow branch resets the
empty-poll counter and keeps waiting (second conjunct, the literal step
equation), so UNCERTAIN can only arise for a command not classified
slow/silent (first conjunct, over every trace and environment). -/
theorem c1_slow_never_uncertain :
    (∀ (sh : ShellState) (command : String) (timeoutSeconds : Nat) (env : RunEnv),
      (isSlowSilentCommand command).1 = true →
      RunResult.isUncertain (run_command sh command timeoutSeconds env).1 = false)
  ∧ (∀ (cfg : LoopCfg) (st : LoopState) (ev : PollEvent) (rest : List PollEvent),
      cfg.isSlow = true → ev.chunk = "" →
      ¬ ((cfg.timeoutSeconds : ℤ) ≤ ev.tCheck - cfg.startTime) →
      cfg.stuckThreshold ≤ st.intervalsWithoutProgress + 1 →
      cfg.minTimeForStuck < ev.tCheck - cfg.startTime →
      cfg.minTimeForStuck < ev.tRead - st.lastOutputTime →
      runLoop cfg st (ev :: rest) =
        runLoop cfg ⟨st.accumulated, st.lastOutputTime, 0⟩ rest) := by
  constructor
  · intro sh command timeoutSeconds env hslow
    unfold run_command
    split
    · rfl
    · split
      · rfl
      · split
        · rfl
        · split
          · rfl
          · rename_i r heq
            exact runLoop_slow_not_uncertain _ hslow _ _ _ heq
  · intro cfg st ev rest h hc hto hth h1 h2
    simp only [runLoop]
    rw [if_neg hto]
    have hc' : ¬ (ev.chunk ≠ "") := by simp [hc]
    rw [if_neg hc', if_pos hth, if_pos (And.intro h1 h2), if_pos h]

/-- Witness for C1 at a concrete slow command and trace. -/
theorem c1_witness :
    RunResult.isUncertain
      (run_command shellOk "wget http://host/file" 30
        (envOf [⟨0, "", 0⟩] "MK" "EX")).1 = false :=
  c1_slow_never_uncertain.1 shellOk "wget http://host/file" 30
    (envOf [⟨0, "", 0⟩] "MK" "EX") (by decide)

theorem strStartsWith_intro (s pre : String) (r : List Char)
    (h : s.data = pre.data ++ r) : strStartsWith s pre = true := by
  unfold strStartsWith
  rw [h]
  exact List.isPrefixOf_iff_prefix.mpr ⟨r, rfl⟩

/-- C2: connect() is idempotent — on a session already connected with an
alive channel it returns the ALREADY_CONNECTED result, spawns nothing
(third component false) and leaves the state unchanged. -/
theorem c2_connect_idempotent :
    ∀ (sh : ShellState) (env : ConnectEnv),
      sh.isConnected = true → sh.processAlive = some true →
      connect sh env = (ConnectRes.alreadyConnected, sh, false)
      ∧ renderConnectRes sh (connect sh env).1 =
          "STATUS: ALREADY_CONNECTED\nShell: " ++ sh.shellId ++ "\nDevice: " ++
          sh.deviceSerial ++ "\nType: " ++ sh.shellType.value := by
  intro sh env hc hp
  have hcond : (sh.isConnected && sh.processAlive == some true) = true := by
    rw [hc, hp]; rfl
  have h1 : connect sh env = (ConnectRes.alreadyConnected, sh, false) := by
    unfold connect; rw [if_pos hcond]
  exact ⟨h1, by rw [h1]; rfl⟩

/-- Witness for C2: a second connect on a live connected session. -/
theorem c2_witness :
    connect ⟨"s1", "emulator-5554", ShellType.nonRoot, true, some true, 7⟩
        ⟨PromptOutcome.noPrompt, SuOutcome.denied, false, 9⟩ =
      (ConnectRes.alreadyConnected,
       ⟨"s1", "emulator-5554", ShellType.nonRoot, true, some true, 7⟩, false) :=
  (c2_connect_idempotent _ _ rfl rfl).1

/-- C9: an empty or whitespace-only command is rejected up front — no bytes
are written, neither probe runs, and the shell state (connected flag,
last-activity stamp) is untouched. -/
theorem c9_empty_command :
    ∀ (sh : ShellState) (command : String) (timeoutSeconds : Nat) (env : RunEnv),
      pyStrip command = "" →
      run_command sh command timeoutSeconds env =
        (RunResult.err "Empty command.", sh, ⟨none, false, false⟩) := by
  intro sh command timeoutSeconds env h
  unfold run_command
  rw [if_pos h]

/-- Witness for C9 at a whitespace-only command. -/
theorem c9_witness :
    run_command shellOk " \t " 30 (envOf [] "MK" "EX") =
      (RunResult.err "Empty command.", shellOk, ⟨none, false, false⟩) :=
  c9_empty_command shellOk " \t " 30 (envOf [] "MK" "EX") (by decide)

/-- Every result the monitoring loop itself returns carries the
configuration's dangerous-command warning (the trace-exhaustion artifact
aside). -/
theorem runLoop_warning (cfg : LoopCfg) :
    ∀ (evs : List PollEvent) (st : LoopState) (r : RunResult),
      runLoop cfg st evs = LoopOut.ret r →
      r.warningOf = cfg.warning ∨ ∃ p, r = RunResult.pending p := by
  intro evs
  induction evs with
  | nil =>
    intro st r hr
    simp only [runLoop] at hr
    cases hr
    exact Or.inr ⟨_, rfl⟩
  | cons ev rest ih =>
    intro st r hr
    simp only [runLoop] at hr
    split at hr
    · cases hr; exact Or.inl rfl
    · split at hr
      · split at hr
        · exact absurd hr (by simp)
        · split at hr
          · split at hr
            · cases hr; exact Or.inl rfl
            · exact ih _ _ hr
          · split at hr
            · cases hr; exact Or.inl rfl
            · exact ih _ _ hr
      · split at hr
        · split at hr
          · split at hr
            · exact ih _ _ hr
            · cases hr; exact Or.inl rfl
          · exact ih _ _ hr
        · exact ih _ _ hr

/-- C5 counterexample: a dangerous command ('vi', no downgrade exception)
issued on a disconnected session yields an ERROR outcome that carries no
warning at all — so the warning is not appended to every outcome of the
call, contradicting the claim as stated. -/
theorem c5_counterexample :
    checkDangerousCommand "vi" =
      some "WARNING: 'vi' is an interactive command that may hang. Consider using alternatives or adding appropriate flags."
    ∧ (run_command shellDead "vi" 30 (envOf [] "MK" "EX")).1 =
        RunResult.err "Shell not connected.\nAction: Use start_shell to connect first."
    ∧ (run_command shellDead "vi" 30 (envOf [] "MK" "EX")).1.warningOf = none
    ∧ strContains
        (renderRunResult "s1" "vi" 30 ""
          (run_command shellDead "vi" 30 (envOf [] "MK" "EX")).1) "WARNING" = false := by
  refine ⟨by decide, by decide, by decide, by decide⟩

/-- C5 (amended): a dangerous-command match never blocks execution — when
the preconditions pass, the wrapped command is still written to the
channel — and the warning is attached to every outcome the monitoring
loop or success path produces; precondition ERROR outcomes carry no
warning. -/
theorem c5_dangerous_warning_amended :
    ∀ (sh : ShellState) (command : String) (timeoutSeconds : Nat) (env : RunEnv) (w : String),
      checkDangerousCommand command = some w →
      pyStrip command ≠ "" → isAliveB sh = true → env.responsive = true →
      (run_command sh command timeoutSeconds env).2.2.sentBytes =
        some (wrappedCommand env.marker env.exitMarker command)
      ∧ ((run_command sh command timeoutSeconds env).1.warningOf = some w
         ∨ ∃ p, (run_command sh command timeoutSeconds env).1 = RunResult.pending p) := by
  intro sh command timeoutSeconds env w hw hne halive hresp
  unfold run_command
  rw [if_neg hne, if_neg (by simp [halive]), if_neg (by simp [hresp])]
  split
  · rename_i acc heq
    exact ⟨rfl, Or.inl (by simp [RunResult.warningOf, hw])⟩
  · rename_i r heq
    refine ⟨rfl, ?_⟩
    rcases runLoop_warning _ _ _ _ heq with h | ⟨p, hp⟩
    · exact Or.inl (by rw [h]; exact hw)
    · exact Or.inr ⟨p, hp⟩

/-- Witness for the amended C5: 'vi' on a live responsive session is sent
and its timeout outcome carries the warning. -/
theorem c5_witness :
    (run_command shellOk "vi" 30 (envOf [⟨40, "", 40⟩] "MK" "EX")).2.2.sentBytes =
      some (wrappedCommand "MK" "EX" "vi")
    ∧ ((run_command shellOk "vi" 30 (envOf [⟨40, "", 40⟩] "MK" "EX")).1.warningOf =
        some "WARNING: 'vi' is an interactive command that may hang. Consider using alternatives or adding appropriate flags."
       ∨ ∃ p, (run_command shellOk "vi" 30 (envOf [⟨40, "", 40⟩] "MK" "EX")).1 =
          RunResult.pending p) :=
  c5_dangerous_warning_amended shellOk "vi" 30 (envOf [⟨40, "", 40⟩] "MK" "EX")
    "WARNING: 'vi' is an interactive command that may hang. Consider using alternatives or adding appropriate flags."
    (by decide) (by decide) (by decide) (by decide)

/-- The executable substring test agrees with list-level infix. -/
theorem strContains_iff (s t : String) :
    strContains s t = true ↔ List.IsInfix t.data s.data := by
  unfold strContains
  rw [List.any_eq_true]
  constructor
  · rintro ⟨i, _, hpre⟩
    obtain ⟨r, hr⟩ := List.isPrefixOf_iff_prefix.mp hpre
    exact ⟨s.data.take i, r, by rw [List.append_assoc, hr, List.take_append_drop]⟩
  · rintro ⟨l, r, hlr⟩
    refine ⟨l.length, List.mem_range.mpr ?_, ?_⟩
    · have : s.data.length = l.length + (t.data.length + r.length) := by
        rw [← hlr]; simp [Nat.add_assoc]
      omega
    · rw [← hlr, List.append_assoc, List.drop_left]
      exact List.isPrefixOf_iff_prefix.mpr ⟨r, rfl⟩

theorem strContains_self (t : String) : strContains t t = true :=
  (strContains_iff t t).mpr ⟨[], [], by simp⟩

theorem strContains_append_left (a b t : String) (h : strContains a t = true) :
    strContains (a ++ b) t = true := by
  obtain ⟨l, r, hlr⟩ := (strContains_iff a t).mp h
  exact (strContains_iff (a ++ b) t).mpr
    ⟨l, r ++ b.data, by rw [strAppend_data, ← hlr]; simp⟩

theorem strContains_append_right (a b t : String) (h : strContains b t = true) :
    strContains (a ++ b) t = true := by
  obtain ⟨l, r, hlr⟩ := (strContains_iff b t).mp h
  exact (strContains_iff (a ++ b) t).mpr
    ⟨a.data ++ l, r, by rw [strAppend_data, ← hlr]; simp⟩

/-- C3: on the success path the status token is SUCCESS exactly for exit
code 0, COMMAND_FAILED exactly for a nonzero code (with the numeric
EXIT_CODE line rendered in both cases), COMPLETED with EXIT_CODE unknown
exactly when no code was extracted; and every run_command result carries
exactly one documented status token (the trace-exhaustion artifact
aside). -/
theorem c3_status_exit_code :
    ∀ (sh : ShellState) (command : String) (timeoutSeconds : Nat) (env : RunEnv)
      (code : Option Nat) (out : String) (w : Option String),
      (run_command sh command timeoutSeconds env).1 = RunResult.done code out w →
      (((RunResult.done code out w).statusToken = "SUCCESS" ↔ code = some 0)
      ∧ ((RunResult.done code out w).statusToken = "COMMAND_FAILED" ↔
          ∃ c, code = some c ∧ c ≠ 0)
      ∧ ((RunResult.done code out w).statusToken = "COMPLETED" ↔ code = none)
      ∧ (∀ c, code = some c →
          strContains (renderRunResult sh.shellId command timeoutSeconds env.recoveryMsg
            (RunResult.done code out w)) ("EXIT_CODE: " ++ toString c) = true)
      ∧ (code = none →
          strContains (renderRunResult sh.shellId command timeoutSeconds env.recoveryMsg
            (RunResult.done code out w)) "EXIT_CODE: unknown" = true)
      ∧ (∀ r : RunResult, r.statusToken ∈ documentedTokens ∨ ∃ p, r = RunResult.pending p)) := by
  intro sh command timeoutSeconds env code out w _h
  refine ⟨?_, ?_, ?_, ?_, ?_, ?_⟩
  · cases code with
    | none =>
      constructor
      · intro habs; exact absurd habs (show ¬ ("COMPLETED" = "SUCCESS") by decide)
      · intro habs; cases habs
    | some c =>
      by_cases hc : c = 0
      · subst hc; simp [RunResult.statusToken, statusOf]
      · simp only [RunResult.statusToken, statusOf, if_neg hc]
        constructor
        · intro habs; exact absurd habs (by decide)
        · intro habs; injection habs with h0; exact absurd h0 hc
  · cases code with
    | none =>
      simp only [RunResult.statusToken, statusOf]
      constructor
      · intro habs; exact absurd habs (by decide)
      · rintro ⟨c, hc, _⟩; cases hc
    | some c =>
      by_cases hc : c = 0
      · subst hc
        simp only [RunResult.statusToken, statusOf, if_pos rfl]
        constructor
        · intro habs; exact absurd habs (by decide)
        · rintro ⟨c', hc', hne⟩; injection hc' with h0; exact absurd h0.symm hne
      · simp only [RunResult.statusToken, statusOf, if_neg hc]
        exact ⟨fun _ => ⟨c, rfl, hc⟩, fun _ => by simp⟩
  · cases code with
    | none => simp [RunResult.statusToken, statusOf]
    | some c =>
      by_cases hc : c = 0
      · subst hc
        simp only [RunResult.statusToken, statusOf, if_pos rfl]
        constructor
        · intro habs; exact absurd habs (by decide)
        · intro habs; cases habs
      · simp only [RunResult.statusToken, statusOf, if_neg hc]
        constructor
        · intro habs; exact absurd habs (by decide)
        · intro habs; cases habs
  · intro c hc
    subst hc
    show strContains
      ("SHELL: " ++ sh.shellId ++ "\n" ++
        ("STATUS: " ++ (if c = 0 then "SUCCESS" else "COMMAND_FAILED") ++
         "\n" ++ "EXIT_CODE: " ++ toString c) ++
        warningMsg w ++ "\nOUTPUT:\n" ++ (if out = "" then "(no output)" else out))
      ("EXIT_CODE: " ++ toString c) = true
    apply strContains_append_left
    apply strContains_append_left
    apply strContains_append_left
    apply strContains_append_right
    rw [strAppend_assoc]
    apply strContains_append_right
    exact strContains_self _
  · intro hc
    subst hc
    show strContains
      ("SHELL: " ++ sh.shellId ++ "\n" ++
        ("STATUS: COMPLETED\n" ++ "EXIT_CODE: unknown") ++
        warningMsg w ++ "\nOUTPUT:\n" ++ (if out = "" then "(no output)" else out))
      "EXIT_CODE: unknown" = true
    apply strContains_append_left
    apply strContains_append_left
    apply strContains_append_left
    apply strContains_append_right
    apply strContains_append_right
    exact strContains_self _
  · intro r
    cases r with
    | err reason => exact Or.inl (show "ERROR" ∈ documentedTokens by decide)
    | timedOut p w' s => exact Or.inl (show "TIMEOUT" ∈ documentedTokens by decide)
    | waiting sp pat p w' =>
      exact Or.inl (show "WAITING_FOR_INPUT" ∈ documentedTokens by decide)
    | uncertain e q p w' => exact Or.inl (show "UNCERTAIN" ∈ documentedTokens by decide)
    | pending p => exact Or.inr ⟨p, rfl⟩
    | done c o w' =>
      cases c with
      | none => exact Or.inl (show "COMPLETED" ∈ documentedTokens by decide)
      | some v =>
        by_cases hv : v = 0
        · subst hv
          exact Or.inl (show "SUCCESS" ∈ documentedTokens by decide)
        · refine Or.inl ?_
          rw [show (RunResult.done (some v) o w').statusToken = "COMMAND_FAILED" from by
            simp [RunResult.statusToken, statusOf, hv]]
          decide

/-- Witness for C3: a concrete successful run extracting exit code 0. -/
theorem c3_witness :
    ((RunResult.done (some 0) "" none).statusToken = "SUCCESS" ↔
      (some 0 : Option Nat) = some 0)
    ∧ strContains (renderRunResult "s1" "ls" 30 "" (RunResult.done (some 0) "" none))
        ("EXIT_CODE: " ++ toString 0) = true := by
  have h : (run_command shellOk "ls" 30 (envOf [⟨0, "E_0E_\nMK\n", 0⟩] "MK" "E_")).1 =
      RunResult.done (some 0) "" none := by decide
  have H := c3_status_exit_code shellOk "ls" 30 (envOf [⟨0, "E_0E_\nMK\n", 0⟩] "MK" "E_")
    (some 0) "" none h
  exact ⟨H.1, H.2.2.2.1 0 rfl⟩

/-- Whatever failure result the monitoring loop returns, its carried
partial output is exactly the initial accumulation plus the chunks of
some prefix of the trace — nothing read so far is dropped from the
structured result. -/
theorem runLoop_reads (cfg : LoopCfg) :
    ∀ (evs : List PollEvent) (st : LoopState) (r : RunResult) (p : String),
      runLoop cfg st evs = LoopOut.ret r → r.partialOf = some p →
      ∃ n, p = st.accumulated ++ joinChunks (evs.take n) := by
  intro evs
  induction evs with
  | nil =>
    intro st r p hr hp
    simp only [runLoop] at hr
    cases hr
    simp [RunResult.partialOf] at hp
  | cons ev rest ih =>
    intro st r p hr hp
    simp only [runLoop] at hr
    split at hr
    · cases hr
      simp only [RunResult.partialOf, Option.some.injEq] at hp
      refine ⟨0, ?_⟩
      rw [← hp]
      simp [joinChunks, strAppend_empty_right]
    · split at hr
      · split at hr
        · exact absurd hr (by simp)
        · split at hr
          · split at hr
            · cases hr
              simp only [RunResult.partialOf, Option.some.injEq] at hp
              refine ⟨1, ?_⟩
              rw [← hp]
              simp [joinChunks, strAppend_empty_right]
            · obtain ⟨n, hn⟩ := ih _ _ _ hr hp
              exact ⟨n + 1, by rw [hn]; simp [joinChunks, strAppend_assoc]⟩
          · split at hr
            · cases hr
              simp only [RunResult.partialOf, Option.some.injEq] at hp
              refine ⟨1, ?_⟩
              rw [← hp]
              simp [joinChunks, strAppend_empty_right]
            · obtain ⟨n, hn⟩ := ih _ _ _ hr hp
              exact ⟨n + 1, by rw [hn]; simp [joinChunks, strAppend_assoc]⟩
      · rename_i hchunk
        have hc : ev.chunk = "" := not_not.mp hchunk
        split at hr
        · split at hr
          · split at hr
            · obtain ⟨n, hn⟩ := ih _ _ _ hr hp
              exact ⟨n + 1, by rw [hn]; simp [joinChunks, hc, strAppend_empty_left]⟩
            · cases hr
              simp only [RunResult.partialOf, Option.some.injEq] at hp
              refine ⟨0, ?_⟩
              rw [← hp]
              simp [joinChunks, strAppend_empty_right]
          · obtain ⟨n, hn⟩ := ih _ _ _ hr hp
            exact ⟨n + 1, by rw [hn]; simp [joinChunks, hc, strAppend_empty_left]⟩
        · obtain ⟨n, hn⟩ := ih _ _ _ hr hp
          exact ⟨n + 1, by rw [hn]; simp [joinChunks, hc, strAppend_empty_left]⟩

/-- On every failure result of run_command, the carried partial output is
the concatenation of the chunks of a prefix of the poll trace. -/
theorem run_command_reads (sh : ShellState) (command : String) (timeoutSeconds : Nat)
    (env : RunEnv) (p : String)
    (hp : (run_command sh command timeoutSeconds env).1.partialOf = some p) :
    ∃ n, p = joinChunks (env.events.take n) := by
  unfold run_command at hp
  split at hp
  · simp [RunResult.partialOf] at hp
  · split at hp
    · simp [RunResult.partialOf] at hp
    · split at hp
      · simp [RunResult.partialOf] at hp
      · split at hp
        · simp [RunResult.partialOf] at hp
        · rename_i r heq
          obtain ⟨n, hn⟩ := runLoop_reads _ _ _ _ _ heq hp
          refine ⟨n, ?_⟩
          rw [hn]
          exact strAppend_empty_left _

/-- The rendered text of every failure result contains the tail of its
partial output, capped at the documented limit. -/
theorem render_contains_tail (shellId command : String) (timeoutSeconds : Nat)
    (recoveryMsg : String) :
    ∀ (r : RunResult) (p : String), r.partialOf = some p →
      strContains (renderRunResult shellId command timeoutSeconds recoveryMsg r)
        (takeRightStr (truncLimit r) p) = true := by
  intro r p hp
  cases r with
  | err reason => simp [RunResult.partialOf] at hp
  | done c o w => simp [RunResult.partialOf] at hp
  | pending q => simp [RunResult.partialOf] at hp
  | timedOut q w sn =>
    simp only [RunResult.partialOf, Option.some.injEq] at hp
    subst hp
    simp only [renderRunResult, truncLimit]
    by_cases hq : q = ""
    · exact strContains_nil _ _ (by rw [hq]; rfl)
    · rw [if_neg hq]
      apply strContains_append_left
      apply strContains_append_right
      exact strContains_self _
  | waiting sp pat q w =>
    simp only [RunResult.partialOf, Option.some.injEq] at hp
    subst hp
    cases sp with
    | false =>
      simp only [renderRunResult, truncLimit]
      apply strContains_append_left
      apply strContains_append_right
      exact strContains_self _
    | true =>
      simp only [renderRunResult, truncLimit]
      apply strContains_append_left
      apply strContains_append_right
      exact strContains_self _
  | uncertain e qt q w =>
    simp only [RunResult.partialOf, Option.some.injEq] at hp
    subst hp
    simp only [renderRunResult, truncLimit]
    by_cases hq : q = ""
    · exact strContains_nil _ _ (by rw [hq]; rfl)
    · rw [if_neg hq]
      apply strContains_append_left
      apply strContains_append_right
      exact strContains_self _

theorem bigChunk_data : bigChunk.data = 'Z' :: List.replicate 2000 'Q' := rfl

theorem bigChunk_ne_empty : bigChunk ≠ "" := by
  intro h
  have h2 := congrArg String.data h
  rw [bigChunk_data, show ("" : String).data = [] from rfl] at h2
  cases h2

theorem bigChunk_no_marker : strContains ("" ++ bigChunk) "MK" = false := by
  refine Bool.eq_false_iff.mpr ?_
  intro habs
  have hm : 'M' ∈ ("" ++ bigChunk).data :=
    ((strContains_iff _ _).mp habs).subset (by decide)
  rw [strAppend_data, show ("" : String).data = [] from rfl, List.nil_append,
    bigChunk_data] at hm
  rw [List.mem_cons] at hm
  rcases hm with h | hm
  · exact absurd h (by decide)
  · exact absurd (List.eq_of_mem_replicate hm) (by decide)

/-- The concrete run: 2001 characters arrive, then the hard timeout fires. -/
theorem c4_big_run :
    (run_command shellOk "xyz" 30
        (envOf [⟨0, bigChunk, 0⟩, ⟨40, "", 40⟩] "MK" "EX")).1 =
      RunResult.timedOut bigChunk none none := by
  have hloop :
      runLoop (mkLoopCfg "xyz" 30 (envOf [⟨0, bigChunk, 0⟩, ⟨40, "", 40⟩] "MK" "EX"))
        ⟨"", 0, 0⟩ [⟨0, bigChunk, 0⟩, ⟨40, "", 40⟩] =
        LoopOut.ret (RunResult.timedOut ("" ++ bigChunk) none none) := by
    have hW : checkDangerousCommand "xyz" = none := by decide
    have hS1 : (isSlowSilentCommand "xyz").1 = false := by decide
    simp only [runLoop, mkLoopCfg, envOf, detectNone, hW, hS1]
    rw [if_neg (show ¬ (((30 : Nat) : ℤ) ≤ (0 : ℤ) - 0) by decide),
      if_pos bigChunk_ne_empty]
    simp only [bigChunk_no_marker, Bool.false_eq_true, if_false, hS1, Bool.false_eq_true,
      if_false]
    rw [if_pos (show ((30 : Nat) : ℤ) ≤ (40 : ℤ) - 0 by decide)]
  unfold run_command
  rw [if_neg (show ¬ (pyStrip "xyz" = "") by decide),
    if_neg (show ¬ (¬ isAliveB shellOk = true) by decide),
    if_neg (show ¬ (¬ (envOf [⟨0, bigChunk, 0⟩, ⟨40, "", 40⟩] "MK" "EX").responsive = true)
      by decide)]
  rw [show (⟨"", (envOf [⟨0, bigChunk, 0⟩, ⟨40, "", 40⟩] "MK" "EX").startTime, 0⟩ :
      LoopState) = (⟨"", 0, 0⟩ : LoopState) from rfl,
    show (envOf [⟨0, bigChunk, 0⟩, ⟨40, "", 40⟩] "MK" "EX").events =
      [⟨0, bigChunk, 0⟩, ⟨40, "", 40⟩] from rfl, hloop]
  rw [strAppend_empty_left]

theorem bigChunk_tail : takeRightStr 2000 bigChunk = String.mk (List.replicate 2000 'Q') := by
  unfold takeRightStr
  rw [bigChunk_data]
  norm_num [List.length_replicate]

theorem bigChunk_len : bigChunk.length = 2001 := by
  show bigChunk.data.length = 2001
  rw [bigChunk_data]
  norm_num [List.length_replicate]

/-- Count of 'Z' in the render of the big timed-out result is zero: the
truncated tail holds only 'Q's and every fixed fragment avoids 'Z'. -/
theorem render_big_no_Z :
    List.count 'Z'
      (renderRunResult "s1" "xyz" 30 ""
        (RunResult.timedOut bigChunk none none)).data = 0 := by
  simp only [renderRunResult, warningMsg]
  rw [if_neg bigChunk_ne_empty, bigChunk_tail, bigChunk_len]
  simp only [strAppend_data, List.count_append]
  rw [List.count_replicate]
  norm_num
  decide

/-- C4 counterexample: with 2001 characters of partial output accumulated
before the hard timeout, the returned text does not contain the full
partial output — only its last 2000 characters — so the accumulated
output is not returned verbatim in the result, as the claim reads. -/
theorem c4_counterexample :
    (run_command shellOk "xyz" 30
        (envOf [⟨0, bigChunk, 0⟩, ⟨40, "", 40⟩] "MK" "EX")).1.partialOf = some bigChunk
    ∧ strContains
        (renderRunResult "s1" "xyz" 30 ""
          (run_command shellOk "xyz" 30
            (envOf [⟨0, bigChunk, 0⟩, ⟨40, "", 40⟩] "MK" "EX")).1)
        bigChunk = false := by
  constructor
  · rw [c4_big_run]
    rfl
  · rw [c4_big_run]
    refine Bool.eq_false_iff.mpr ?_
    intro habs
    have hcount := (((strContains_iff _ _).mp habs).sublist).count_le 'Z'
    rw [render_big_no_Z, bigChunk_data, List.count_cons_self] at hcount
    have hrep : List.count 'Z' (List.replicate 2000 'Q') = 0 := by
      rw [List.count_replicate]
      decide
    rw [hrep] at hcount
    omega

/-- C4 (amended): on every failure path — timeout, uncertain,
waiting-for-input — the result structurally carries everything read so
far (the chunks of a prefix of the trace), and the rendered text includes
that partial output truncated to its last 2000 characters (1500 for
UNCERTAIN), not the full text when longer. -/
theorem c4_partial_output_amended :
    ∀ (sh : ShellState) (command : String) (timeoutSeconds : Nat) (env : RunEnv) (p : String),
      (run_command sh command timeoutSeconds env).1.partialOf = some p →
      ((∃ n, p = joinChunks (env.events.take n))
       ∧ strContains
           (renderRunResult sh.shellId command timeoutSeconds env.recoveryMsg
             (run_command sh command timeoutSeconds env).1)
           (takeRightStr (truncLimit (run_command sh command timeoutSeconds env).1) p) =
         true) :=
  fun sh command timeoutSeconds env p hp =>
    ⟨run_command_reads sh command timeoutSeconds env p hp,
     render_contains_tail sh.shellId command timeoutSeconds env.recoveryMsg _ p hp⟩

/-- Witness for the amended C4 at a concrete timed-out trace. -/
theorem c4_witness :
    strContains
      (renderRunResult "s1" "xyz" 30 ""
        (run_command shellOk "xyz" 30 (envOf [⟨0, "ab", 0⟩, ⟨40, "", 40⟩] "MK" "EX")).1)
      (takeRightStr
        (truncLimit (run_command shellOk "xyz" 30
          (envOf [⟨0, "ab", 0⟩, ⟨40, "", 40⟩] "MK" "EX")).1) "ab") = true :=
  (c4_partial_output_amended shellOk "xyz" 30
    (envOf [⟨0, "ab", 0⟩, ⟨40, "", 40⟩] "MK" "EX") "ab" (by decide)).2

/-- C7: every pool operation keyed by a session id — run, stop, batch,
background, status, peek, send — returns its distinct 'Shell not found'
result on an unknown id and leaves the whole manager state (registry and
sessions) unchanged. -/
theorem c7_unknown_id :
    ∀ (m : ManagerState) (sid : String),
      List.lookup sid m.shells = none →
      (∀ (command : String) (timeoutSeconds : Nat) (wd : Option String) (env : RunEnv),
        run_in_shell m sid command timeoutSeconds wd env =
          ("STATUS: ERROR\nShell: " ++ sid ++
           "\nReason: Shell not found.\nAction: Use list_shells to see active shells, or start_shell to create one.",
           m))
      ∧ stop_shell m sid =
          ("STATUS: ERROR\nShell: " ++ sid ++
           "\nReason: Shell not found.\nAction: Use list_shells to see active shells.", m)
      ∧ (∀ (commands : List CmdSpec) (stopOnError : Bool) (exec : Nat → String → Nat → String),
          run_commands_batch m sid commands stopOnError exec =
            ("STATUS: ERROR\nShell: " ++ sid ++ "\nReason: Shell not found.", m))
      ∧ (∀ (command jobId : String) (env : RunEnv) (now : ℤ),
          run_background m sid command jobId env now =
            ("STATUS: ERROR\nShell: " ++ sid ++ "\nReason: Shell not found.", m))
      ∧ (∀ (responsive : Bool) (now : ℤ),
          get_shell_status m sid responsive now =
            ("STATUS: ERROR\nShell: " ++ sid ++ "\nReason: Shell not found.", m))
      ∧ (∀ raw : String,
          peek_shell_output m sid raw =
            ("STATUS: ERROR\nShell: " ++ sid ++ "\nReason: Shell not found.", m))
      ∧ (∀ (text : String) (pressEnter : Bool),
          send_to_shell m sid text pressEnter =
            ("STATUS: ERROR\nShell: " ++ sid ++ "\nReason: Shell not found.", m)) := by
  intro m sid h
  refine ⟨?_, ?_, ?_, ?_, ?_, ?_, ?_⟩
  · intro command timeoutSeconds wd env
    unfold run_in_shell
    rw [h]
  · unfold stop_shell
    rw [h]
  · intro commands stopOnError exec
    unfold run_commands_batch
    rw [h]
  · intro command jobId env now
    unfold run_background
    rw [h]
  · intro responsive now
    unfold get_shell_status
    rw [h]
  · intro raw
    unfold peek_shell_output
    rw [h]
  · intro text pressEnter
    unfold send_to_shell
    rw [h]

/-- Witness for C7: the empty pool rejects an unknown id on stop and run. -/
theorem c7_witness :
    stop_shell ⟨[], []⟩ "ghost" =
      ("STATUS: ERROR\nShell: ghost\nReason: Shell not found.\nAction: Use list_shells to see active shells.",
       (⟨[], []⟩ : ManagerState)) :=
  (c7_unknown_id ⟨[], []⟩ "ghost" rfl).2.1

/-- C10: checking a background job whose owning shell has left the
registry yields an ERROR (not RUNNING/COMPLETED) and changes nothing, so
the job stays registered; no id-keyed operation removes job records —
only the pool-wide stop_all clears them. -/
theorem c10_orphaned_job :
    ∀ (m : ManagerState) (jobId : String) (job : BackgroundJob)
      (env1 env2 : RunEnv) (now : ℤ),
      List.lookup jobId m.jobs = some job →
      List.lookup job.shellId m.shells = none →
      (check_background_job m jobId env1 env2 now =
        ("STATUS: ERROR\nJob: " ++ jobId ++ "\nReason: Shell " ++ job.shellId ++
         " no longer exists.", m)
       ∧ List.lookup jobId (check_background_job m jobId env1 env2 now).2.jobs = some job
       ∧ (∀ (m' : ManagerState) (jid : String) (e1 e2 : RunEnv) (n : ℤ),
           (check_background_job m' jid e1 e2 n).2.jobs = m'.jobs)
       ∧ (∀ (m' : ManagerState) (sid : String), (stop_shell m' sid).2.jobs = m'.jobs)
       ∧ (∀ m' : ManagerState, (stop_all m').2.jobs = [])) := by
  intro m jobId job env1 env2 now hj hs
  have hjobs : ∀ (m' : ManagerState) (jid : String) (e1 e2 : RunEnv) (n : ℤ),
      (check_background_job m' jid e1 e2 n).2.jobs = m'.jobs := by
    intro m' jid e1 e2 n
    unfold check_background_job
    cases hq : List.lookup jid m'.jobs with
    | none => rfl
    | some jb =>
      dsimp only
      cases List.lookup jb.shellId m'.shells with
      | none => rfl
      | some sh => rfl
  have hmain : check_background_job m jobId env1 env2 now =
      ("STATUS: ERROR\nJob: " ++ jobId ++ "\nReason: Shell " ++ job.shellId ++
       " no longer exists.", m) := by
    unfold check_background_job
    rw [hj]
    dsimp only
    rw [hs]
  refine ⟨hmain, ?_, hjobs, ?_, ?_⟩
  · rw [hmain]
    exact hj
  · intro m' sid
    unfold stop_shell
    cases hq : List.lookup sid m'.shells with
    | none => rfl
    | some sh => rfl
  · intro m'
    rfl

/-- Witness for C10: a registered job whose shell id is gone. -/
theorem c10_witness :
    check_background_job ⟨[], [("j1", ⟨"j1", "sleep 99", "ghost", 0⟩)]⟩ "j1"
        (envOf [] "MK" "EX") (envOf [] "MK" "EX") 5 =
      ("STATUS: ERROR\nJob: j1\nReason: Shell ghost no longer exists.",
       (⟨[], [("j1", ⟨"j1", "sleep 99", "ghost", 0⟩)]⟩ : ManagerState)) :=
  (c10_orphaned_job ⟨[], [("j1", ⟨"j1", "sleep 99", "ghost", 0⟩)]⟩ "j1"
    ⟨"j1", "sleep 99", "ghost", 0⟩ (envOf [] "MK" "EX") (envOf [] "MK" "EX") 5 rfl rfl).1

/-- A connected or already-connected handshake result always passes
start_shell's registration test. -/
theorem handshake_render_ok (sh : ShellState) (c : ConnectRes)
    (h : c = ConnectRes.connected ∨ c = ConnectRes.alreadyConnected) :
    handshakeSucceeded (renderConnectRes sh c) = true := by
  rcases h with h | h <;> subst h
  · unfold handshakeSucceeded
    rw [Bool.or_eq_true]
    left
    show strContains
      ("STATUS: CONNECTED\nShell: " ++ sh.shellId ++ "\nDevice: " ++ sh.deviceSerial ++
       "\nType: " ++ sh.shellType.value ++ "\nReady for commands.") "STATUS: CONNECTED" = true
    apply strContains_append_left
    apply strContains_append_left
    apply strContains_append_left
    apply strContains_append_left
    apply strContains_append_left
    apply strContains_append_left
    decide
  · unfold handshakeSucceeded
    rw [Bool.or_eq_true]
    right
    show strContains
      ("STATUS: ALREADY_CONNECTED\nShell: " ++ sh.shellId ++ "\nDevice: " ++ sh.deviceSerial ++
       "\nType: " ++ sh.shellType.value) "STATUS: ALREADY_CONNECTED" = true
    apply strContains_append_left
    apply strContains_append_left
    apply strContains_append_left
    apply strContains_append_left
    apply strContains_append_left
    decide

/-- C6: with the device probe succeeding, start_shell returns the
handshake's rendered result verbatim in both branches, registers the new
session exactly when that text carries the CONNECTED/ALREADY_CONNECTED
success token — which every successful handshake does — and on a failed
check the registry is untouched. -/
theorem c6_start_shell_registration :
    ∀ (m : ManagerState) (serial shellType : String) (env : StartEnv),
      env.probe = ProbeOutcome.state "device" →
      ((start_shell m serial shellType env).1 =
         renderConnectRes (freshShell serial shellType env)
           (connect (freshShell serial shellType env) env.connectEnv).1
       ∧ (start_shell m serial shellType env).2 =
           (if handshakeSucceeded ((start_shell m serial shellType env).1) then
             { m with shells := (setKey env.newShellId
                 (connect (freshShell serial shellType env) env.connectEnv).2.1 m.shells) }
            else m)
       ∧ (((connect (freshShell serial shellType env) env.connectEnv).1 = ConnectRes.connected
           ∨ (connect (freshShell serial shellType env) env.connectEnv).1 =
               ConnectRes.alreadyConnected) →
          handshakeSucceeded ((start_shell m serial shellType env).1) = true)
       ∧ (handshakeSucceeded ((start_shell m serial shellType env).1) = false →
          (start_shell m serial shellType env).2 = m)) := by
  intro m serial shellType env hprobe
  have hne : ¬ ("device" ≠ "device") := by simp
  by_cases hh : handshakeSucceeded (renderConnectRes (freshShell serial shellType env)
      (connect (freshShell serial shellType env) env.connectEnv).1) = true
  · have heq : start_shell m serial shellType env =
        (renderConnectRes (freshShell serial shellType env)
           (connect (freshShell serial shellType env) env.connectEnv).1,
         { m with shells := (setKey env.newShellId
             (connect (freshShell serial shellType env) env.connectEnv).2.1 m.shells) }) := by
      unfold start_shell
      rw [hprobe]
      dsimp only
      rw [if_neg hne, if_pos hh]
    refine ⟨by rw [heq], ?_, ?_, ?_⟩
    · rw [heq]
      dsimp only
      rw [if_pos hh]
    · intro _
      rw [heq]
      exact hh
    · intro hfalse
      rw [heq] at hfalse
      rw [hh] at hfalse
      cases hfalse
  · have hh' : handshakeSucceeded (renderConnectRes (freshShell serial shellType env)
        (connect (freshShell serial shellType env) env.connectEnv).1) = false :=
      Bool.eq_false_iff.mpr hh
    have heq : start_shell m serial shellType env =
        (renderConnectRes (freshShell serial shellType env)
           (connect (freshShell serial shellType env) env.connectEnv).1, m) := by
      unfold start_shell
      rw [hprobe]
      dsimp only
      rw [if_neg hne, if_neg (by rw [hh']; simp)]
    refine ⟨by rw [heq], ?_, ?_, ?_⟩
    · rw [heq]
      dsimp only
      rw [hh']
      rfl
    · intro hsucc
      exact absurd (handshake_render_ok _ _ hsucc) hh
    · intro _
      rw [heq]

/-- Witness for C6: a root handshake denied on-device registers nothing. -/
theorem c6_witness :
    (start_shell ⟨[], []⟩ "emulator-5554" "root"
        ⟨ProbeOutcome.state "device", "em5554_root_ab12",
         ⟨PromptOutcome.found false, SuOutcome.denied, false, 3⟩⟩).2 =
      (⟨[], []⟩ : ManagerState) :=
  (c6_start_shell_registration ⟨[], []⟩ "emulator-5554" "root"
      ⟨ProbeOutcome.state "device", "em5554_root_ab12",
       ⟨PromptOutcome.found false, SuOutcome.denied, false, 3⟩⟩ rfl).2.2.2
    (by decide)

theorem strStartsWith_append (a b : String) : strStartsWith (a ++ b) a = true :=
  strStartsWith_intro _ _ b.data (strAppend_data a b)

theorem strStartsWith_append_left (a b pre : String)
    (h : strStartsWith a pre = true) : strStartsWith (a ++ b) pre = true := by
  obtain ⟨r, hr⟩ := List.isPrefixOf_iff_prefix.mp h
  exact strStartsWith_intro _ _ (r ++ b.data) (by rw [strAppend_data, ← hr]; simp)

/-- The per-command tallies of the batch loop count exactly the executed
commands whose result text passes / fails the success test. -/
theorem batch_tally (exec : Nat → String → Nat → String) (stopOnError : Bool) :
    ∀ (specs : List CmdSpec) (i : Nat),
      (batchGo exec stopOnError i specs).succeeded =
        ((batchGo exec stopOnError i specs).calls.filter
          (fun c => isSuccessResult c.2.2)).length
      ∧ (batchGo exec stopOnError i specs).failed =
        ((batchGo exec stopOnError i specs).calls.filter
          (fun c => !(isSuccessResult c.2.2))).length := by
  intro specs
  induction specs with
  | nil => intro i; exact ⟨rfl, rfl⟩
  | cons spec rest ih =>
    intro i
    by_cases hcmd : (specFields i spec).1 = ""
    · simpa only [batchGo, if_pos hcmd] using ih (i + 1)
    · cases hok : isSuccessResult (exec i (batchActual i spec) (specFields i spec).2.2.1) with
      | false =>
        cases stopOnError with
        | true =>
          simp only [batchGo, if_neg hcmd, hok, Bool.not_false, Bool.and_true,
            eq_self_iff_true, if_true]
          constructor
          · simp [List.filter_cons, hok]
          · simp [List.filter_cons, hok]
        | false =>
          simp only [batchGo, if_neg hcmd, hok, Bool.not_false, Bool.and_true,
            Bool.false_eq_true, if_false]
          constructor
          · rw [Nat.zero_add, List.filter_cons]
            simp only [hok, Bool.false_eq_true, if_false]
            exact (ih (i + 1)).1
          · rw [List.filter_cons]
            simp only [hok, Bool.not_false, eq_self_iff_true, if_true, List.length_cons]
            rw [(ih (i + 1)).2]
            omega
      | true =>
        simp only [batchGo, if_neg hcmd, hok, Bool.not_true, Bool.and_false,
          Bool.false_eq_true, if_false, eq_self_iff_true, if_true]
        constructor
        · rw [List.filter_cons]
          simp only [hok, eq_self_iff_true, if_true, List.length_cons]
          rw [(ih (i + 1)).1]
          omega
        · rw [Nat.zero_add, List.filter_cons]
          simp only [hok, Bool.not_true, Bool.false_eq_true, if_false]
          exact (ih (i + 1)).2

/-- A batch that made at least one call produced at least one result entry. -/
theorem batch_calls_results (exec : Nat → String → Nat → String) (stopOnError : Bool) :
    ∀ (specs : List CmdSpec) (i : Nat),
      (batchGo exec stopOnError i specs).calls ≠ [] →
      (batchGo exec stopOnError i specs).results ≠ [] := by
  intro specs
  induction specs with
  | nil => intro i h; exact absurd rfl h
  | cons spec rest ih =>
    intro i h
    by_cases hcmd : (specFields i spec).1 = ""
    · simp only [batchGo, if_pos hcmd] at h ⊢
      exact List.cons_ne_nil _ _
    · cases hok : isSuccessResult (exec i (batchActual i spec) (specFields i spec).2.2.1) with
      | false =>
        cases stopOnError with
        | true =>
          simp only [batchGo, if_neg hcmd, hok, Bool.not_false, Bool.and_true,
            eq_self_iff_true, if_true]
          exact List.cons_ne_nil _ _
        | false =>
          simp only [batchGo, if_neg hcmd, hok, Bool.not_false, Bool.and_true,
            Bool.false_eq_true, if_false]
          exact List.cons_ne_nil _ _
      | true =>
        simp only [batchGo, if_neg hcmd, hok, Bool.not_true, Bool.and_false,
          Bool.false_eq_true, if_false]
        exact List.cons_ne_nil _ _

/-- With stop_on_error set, every call before the last one was successful:
the batch never continues past a failure. -/
theorem batch_stop_dropLast (exec : Nat → String → Nat → String) :
    ∀ (specs : List CmdSpec) (i : Nat),
      ∀ c ∈ (batchGo exec true i specs).calls.dropLast, isSuccessResult c.2.2 = true := by
  intro specs
  induction specs with
  | nil => intro i c hc; simp [batchGo] at hc
  | cons spec rest ih =>
    intro i c hc
    by_cases hcmd : (specFields i spec).1 = ""
    · simp only [batchGo, if_pos hcmd] at hc
      exact ih (i + 1) c hc
    · cases hok : isSuccessResult (exec i (batchActual i spec) (specFields i spec).2.2.1) with
      | false =>
        simp only [batchGo, if_neg hcmd, hok, Bool.not_false, Bool.and_true,
          eq_self_iff_true, if_true] at hc
        simp at hc
      | true =>
        simp only [batchGo, if_neg hcmd, hok, Bool.not_true, Bool.and_false,
          Bool.false_eq_true, if_false] at hc
        rcases hcalls : (batchGo exec true (i + 1) rest).calls with _ | ⟨b, bs⟩
        · rw [hcalls] at hc
          simp at hc
        · rw [hcalls] at hc
          rw [List.dropLast_cons₂] at hc
          rcases List.mem_cons.mp hc with h | h
          · subst h
            exact hok
          · exact ih (i + 1) c (by rw [hcalls]; exact h)

/-- With stop_on_error set, if the last call failed then the batch's
result list ends with the explicit stopped marker naming that command. -/
theorem batch_stop_marker (exec : Nat → String → Nat → String) :
    ∀ (specs : List CmdSpec) (i : Nat) (c : String × String × String),
      (batchGo exec true i specs).calls.getLast? = some c →
      isSuccessResult c.2.2 = false →
      (batchGo exec true i specs).results.getLast? = some (stopMarker c.1) := by
  intro specs
  induction specs with
  | nil => intro i c hc _; simp [batchGo] at hc
  | cons spec rest ih =>
    intro i c hc hfail
    by_cases hcmd : (specFields i spec).1 = ""
    · simp only [batchGo, if_pos hcmd] at hc ⊢
      have hlast := ih (i + 1) c hc hfail
      have hne : (batchGo exec true (i + 1) rest).calls ≠ [] := by
        intro habs
        rw [habs] at hc
        simp at hc
      have hrne := batch_calls_results exec true rest (i + 1) hne
      rcases hres : (batchGo exec true (i + 1) rest).results with _ | ⟨r, rs⟩
      · exact absurd hres hrne
      · rw [hres] at hlast
        rw [List.getLast?_cons_cons]
        exact hlast
    · cases hok : isSuccessResult (exec i (batchActual i spec) (specFields i spec).2.2.1) with
      | false =>
        simp only [batchGo, if_neg hcmd, hok, Bool.not_false, Bool.and_true,
          eq_self_iff_true, if_true] at hc ⊢
        simp at hc
        subst hc
        rfl
      | true =>
        simp only [batchGo, if_neg hcmd, hok, Bool.not_true, Bool.and_false,
          Bool.false_eq_true, if_false] at hc ⊢
        rcases hcalls : (batchGo exec true (i + 1) rest).calls with _ | ⟨b, bs⟩
        · rw [hcalls] at hc
          simp at hc
          subst hc
          rw [hok] at hfail
          cases hfail
        · rw [hcalls, List.getLast?_cons_cons] at hc
          have hlast := ih (i + 1) c (by rw [hcalls]; exact hc) hfail
          have hrne := batch_calls_results exec true rest (i + 1)
            (by rw [hcalls]; exact List.cons_ne_nil _ _)
          rcases hres : (batchGo exec true (i + 1) rest).results with _ | ⟨r, rs⟩
          · exact absurd hres hrne
          · rw [hres] at hlast
            rw [List.getLast?_cons_cons]
            exact hlast

/-- C8: a batch command counts as successful exactly when its result text
shows an explicit SUCCESS status or exit code zero (the tallies count the
executed calls by that test); the header reports those tallies; with
stop_on_error set every call but possibly the last succeeded — execution
stops at the first failure — and a failing last call appends the explicit
stopped marker; and the pool operation renders the loop's outcome on a
registered, alive session. -/
theorem c8_batch_behaviour :
    (∀ (exec : Nat → String → Nat → String) (stopOnError : Bool)
       (specs : List CmdSpec) (i : Nat),
      (batchGo exec stopOnError i specs).succeeded =
        ((batchGo exec stopOnError i specs).calls.filter
          (fun c => isSuccessResult c.2.2)).length
      ∧ (batchGo exec stopOnError i specs).failed =
        ((batchGo exec stopOnError i specs).calls.filter
          (fun c => !(isSuccessResult c.2.2))).length)
  ∧ (∀ (exec : Nat → String → Nat → String) (stopOnError : Bool)
       (specs : List CmdSpec) (i total : Nat),
      strStartsWith (batchRender total (batchGo exec stopOnError i specs))
        ("BATCH RESULTS: " ++ toString (batchGo exec stopOnError i specs).succeeded ++
         "/" ++ toString total ++ " succeeded, " ++
         toString (batchGo exec stopOnError i specs).failed ++ " failed") = true)
  ∧ (∀ (exec : Nat → String → Nat → String) (specs : List CmdSpec) (i : Nat),
      ∀ c ∈ (batchGo exec true i specs).calls.dropLast, isSuccessResult c.2.2 = true)
  ∧ (∀ (exec : Nat → String → Nat → String) (specs : List CmdSpec) (i : Nat)
       (c : String × String × String),
      (batchGo exec true i specs).calls.getLast? = some c →
      isSuccessResult c.2.2 = false →
      (batchGo exec true i specs).results.getLast? = some (stopMarker c.1))
  ∧ (∀ (m : ManagerState) (sid : String) (sh : ShellState) (specs : List CmdSpec)
       (stopOnError : Bool) (exec : Nat → String → Nat → String),
      List.lookup sid m.shells = some sh → isAliveB sh = true →
      run_commands_batch m sid specs stopOnError exec =
        (batchRender specs.length (batchGo exec stopOnError 0 specs), m)) := by
  refine ⟨?_, ?_, ?_, ?_, ?_⟩
  · intro exec stopOnError specs i
    exact batch_tally exec stopOnError specs i
  · intro exec stopOnError specs i total
    unfold batchRender
    apply strStartsWith_append_left
    apply strStartsWith_append_left
    apply strStartsWith_append_left
    exact strStartsWith_append _ _
  · intro exec specs i
    exact batch_stop_dropLast exec specs i
  · intro exec specs i c
    exact batch_stop_marker exec specs i c
  · intro m sid sh specs stopOnError exec hl halive
    unfold run_commands_batch
    rw [hl]
    dsimp only
    rw [if_neg (by simp [halive])]

/-- Witness for C8: a single failing command under stop_on_error ends the
results with the stopped marker, and the pool renders the batch on a live
session. -/
theorem c8_witness :
    (batchGo execFail true 0 [CmdSpec.bare "true"]).results.getLast? =
      some (stopMarker "cmd_0")
    ∧ run_commands_batch ⟨[("s1", shellOk)], []⟩ "s1" [] false execFail =
        (batchRender 0 (batchGo execFail false 0 []), (⟨[("s1", shellOk)], []⟩ : ManagerState)) :=
  ⟨c8_batch_behaviour.2.2.2.1 execFail [CmdSpec.bare "true"] 0
    ("cmd_0", "true", execFail 0 "true" 30) (by decide) (by decide),
   c8_batch_behaviour.2.2.2.2 ⟨[("s1", shellOk)], []⟩ "s1" shellOk [] false execFail
    rfl (by decide)⟩

end AndroidRoot
